import Mathlib

/-!
Verification of the crypto-signals technical-indicator library
(`src/indicators/technicalIndicators.js`) and signal engine
(`src/signals/signalEngine.js`).

Modelling conventions for the shallow embedding:
* JavaScript numbers are modelled as exact rationals (`ℚ`); a `null`-able
  number is `Option ℚ` with `none` for `null`.
* Division is the total `ℚ` division, so `x / 0 = 0` where JavaScript would
  produce `Infinity`/`NaN`; no claim below exercises such an input.
* JavaScript truthiness of a nullable number (`x ? … : …`, `!x`, `x && …`)
  is `jsTruthy`: `null` and `0` are falsy, everything else truthy.
* Relational comparison against a possibly-`null` number coerces `null`
  to `0` (JavaScript `ToNumber(null) = 0`); this is `jsNum`.
* Display-only string formatting (`toFixed`, message texts, emoji) is
  dropped: formatted numeric fields keep their exact rational value and
  the human-readable `reasons` strings become the `Reason` tags below.
* `Math.sqrt` (used only by `BollingerBands`) is an abstract function
  parameter `sqrtFn : ℚ → ℚ`; no claim depends on its values.
-/

namespace CryptoSignals

/-- JavaScript truthiness of a nullable number: `null` and `0` are falsy. -/
def jsTruthy : Option ℚ → Bool
  | none => false
  | some v => v != 0

/-- JavaScript `ToNumber` coercion of a nullable number (`null ↦ 0`),
used where the source compares or multiplies a possibly-`null` value. -/
def jsNum : Option ℚ → ℚ
  | none => 0
  | some v => v

/-- `Array.prototype.slice(a, b)` for the in-range uses in the source. -/
def jsSlice (l : List α) (a b : ℕ) : List α :=
  (l.drop a).take (b - a)

/-- `reduce((a, b) => a + b, 0)`. -/
def listSum (l : List ℚ) : ℚ :=
  l.foldl (· + ·) 0

/-- `Math.min(...)` over a spread array (the source only applies it to
nonempty arrays; the empty case is unreachable there). -/
def listMin : List ℚ → ℚ
  | [] => 0
  | x :: xs => xs.foldl min x

/-- `Math.max(...)` over a spread array (nonempty in the source). -/
def listMax : List ℚ → ℚ
  | [] => 0
  | x :: xs => xs.foldl max x

/-- One OHLCV candle (the engine never reads the `time` field). -/
structure Candle where
  open_ : ℚ
  high : ℚ
  low : ℚ
  close : ℚ
  volume : ℚ
  symbol : String
  deriving Repr, DecidableEq

/-- List lookup with a default, used for the in-range index accesses of the
source's `for` loops. -/
def cAt (l : List Candle) (i : ℕ) : Candle :=
  l.getD i ⟨0, 0, 0, 0, 0, ""⟩

namespace TechnicalIndicators

/-- `TechnicalIndicators.SMA(data, period)`: `null` for `i < period − 1`,
else the mean of `data.slice(i − period + 1, i + 1)`. -/
def SMA (data : List ℚ) (period : ℕ) : List (Option ℚ) :=
  (List.range data.length).map fun (i : ℕ) =>
    if (i : ℤ) < (period : ℤ) - 1 then none
    else some (listSum (jsSlice data (i + 1 - period) (i + 1)) / period)

/-- The loop of `TechnicalIndicators.EMA`: walks the data carrying the index
`i` and the running `ema` value exactly as the source's mutable `ema`. -/
def emaLoop (m : ℚ) (period : ℕ) : List ℚ → ℕ → ℚ → List (Option ℚ)
  | [], _, _ => []
  | x :: rest, i, ema =>
    if (i : ℤ) < (period : ℤ) - 1 then none :: emaLoop m period rest (i + 1) ema
    else if (i : ℤ) = (period : ℤ) - 1 then some ema :: emaLoop m period rest (i + 1) ema
    else
      let e := (x - ema) * m + ema
      some e :: emaLoop m period rest (i + 1) e

/-- `TechnicalIndicators.EMA(data, period)`: seed is the simple mean of the
first `period` values, placed at index `period − 1`; thereafter
`ema = (data[i] − ema) * 2/(period+1) + ema`. -/
def EMA (data : List ℚ) (period : ℕ) : List (Option ℚ) :=
  emaLoop (2 / ((period : ℚ) + 1)) period data 0
    (listSum (jsSlice data 0 period) / period)

/-- The per-step price changes `closes[i] − closes[i−1]` of `RSI`. -/
def rsiChanges (closes : List ℚ) : List ℚ :=
  List.zipWith (· - ·) (closes.drop 1) closes

/-- The `gains` array of `RSI`. -/
def rsiGains (closes : List ℚ) : List ℚ :=
  (rsiChanges closes).map fun c => if c > 0 then c else 0

/-- The `losses` array of `RSI`. -/
def rsiLosses (closes : List ℚ) : List ℚ :=
  (rsiChanges closes).map fun c => if c < 0 then |c| else 0

/-- Trailing simple mean of the gains over the window ending at gains-index
`i` (all three `if`/`else` branches of the source compute exactly this:
`gains.slice(i − period + 1, i + 1).reduce(..) / period`, and at
`i = period − 1` the slice `(0, period)` coincides with it). -/
def rsiAvgGain (closes : List ℚ) (period : ℕ) (i : ℕ) : ℚ :=
  listSum (jsSlice (rsiGains closes) (i + 1 - period) (i + 1)) / period

/-- Trailing simple mean of the losses, as `rsiAvgGain`. -/
def rsiAvgLoss (closes : List ℚ) (period : ℕ) (i : ℕ) : ℚ :=
  listSum (jsSlice (rsiLosses closes) (i + 1 - period) (i + 1)) / period

/-- `TechnicalIndicators.RSI(closes, period)`: a leading `null`, then for
each gains-index `i`: `null` while `i < period − 1`, `100` when the average
loss is `0`, else `100 − 100/(1 + avgGain/avgLoss)`. -/
def RSI (closes : List ℚ) (period : ℕ) : List (Option ℚ) :=
  none :: (List.range (rsiGains closes).length).map fun (i : ℕ) =>
    if (i : ℤ) < (period : ℤ) - 1 then none
    else
      let avgGain := rsiAvgGain closes period i
      let avgLoss := rsiAvgLoss closes period i
      if avgLoss = 0 then some 100
      else some (100 - 100 / (1 + avgGain / avgLoss))

/-- Pointwise difference of two nullable series (`null` if either side is). -/
def optSub (a b : List (Option ℚ)) : List (Option ℚ) :=
  List.zipWith
    (fun x y => match x, y with
      | some u, some v => some (u - v)
      | _, _ => none) a b

/-- The signal-line re-alignment loop of `MACD`: walks `macdLine`, consuming
one entry of `signalEMA` per non-`null` macd entry; `signalEMA[k] || null`
maps both `null` and `0` to `null`. -/
def alignSignal : List (Option ℚ) → List (Option ℚ) → List (Option ℚ)
  | [], _ => []
  | none :: rest, sig => none :: alignSignal rest sig
  | some _ :: rest, sig =>
    match sig with
    | [] => none :: alignSignal rest []
    | s :: sigRest => (if jsTruthy s then s else none) :: alignSignal rest sigRest

/-- Result record of `MACD`. -/
structure MACDResult where
  macd : List (Option ℚ)
  signal : List (Option ℚ)
  histogram : List (Option ℚ)
  deriving Repr, DecidableEq

/-- `TechnicalIndicators.MACD(closes, fast, slow, signal)`. -/
def MACD (closes : List ℚ) (fastPeriod slowPeriod signalPeriod : ℕ) : MACDResult :=
  let fastEMA := EMA closes fastPeriod
  let slowEMA := EMA closes slowPeriod
  let macdLine := optSub fastEMA slowEMA
  let validMacd := macdLine.filterMap id
  let signalEMA := EMA validMacd signalPeriod
  let signal := alignSignal macdLine signalEMA
  let histogram := optSub macdLine signal
  ⟨macdLine, signal, histogram⟩

/-- Result record of `BollingerBands`. -/
structure BBResult where
  upper : List (Option ℚ)
  middle : List (Option ℚ)
  lower : List (Option ℚ)
  deriving Repr, DecidableEq

/-- One loop step of `BollingerBands` for the `upper` array: the mean is
`middle[i]` and the variance the population variance of the trailing
window. -/
def bbUpperEntry (sqrtFn : ℚ → ℚ) (closes : List ℚ) (period : ℕ) (stdDev : ℚ)
    (i : ℕ) : Option ℚ :=
  if (i : ℤ) < (period : ℤ) - 1 then none
  else
    let slice := jsSlice closes (i + 1 - period) (i + 1)
    let mean := jsNum ((SMA closes period).getD i none)
    let variance := listSum (slice.map fun v => (v - mean) ^ 2) / period
    some (mean + stdDev * sqrtFn variance)

/-- One loop step of `BollingerBands` for the `lower` array. -/
def bbLowerEntry (sqrtFn : ℚ → ℚ) (closes : List ℚ) (period : ℕ) (stdDev : ℚ)
    (i : ℕ) : Option ℚ :=
  if (i : ℤ) < (period : ℤ) - 1 then none
  else
    let slice := jsSlice closes (i + 1 - period) (i + 1)
    let mean := jsNum ((SMA closes period).getD i none)
    let variance := listSum (slice.map fun v => (v - mean) ^ 2) / period
    some (mean - stdDev * sqrtFn variance)

/-- `TechnicalIndicators.BollingerBands(closes, period, stdDev)`, with
`Math.sqrt` as the abstract parameter `sqrtFn`; `middle = SMA(period)`. -/
def BollingerBands (sqrtFn : ℚ → ℚ) (closes : List ℚ) (period : ℕ) (stdDev : ℚ) :
    BBResult :=
  ⟨(List.range closes.length).map (bbUpperEntry sqrtFn closes period stdDev),
   SMA closes period,
   (List.range closes.length).map (bbLowerEntry sqrtFn closes period stdDev)⟩

/-- The `trueRanges` array of `ATR`. -/
def trueRanges (candles : List Candle) : List ℚ :=
  (List.range candles.length).map fun (i : ℕ) =>
    if i = 0 then (cAt candles 0).high - (cAt candles 0).low
    else
      let high := (cAt candles i).high
      let low := (cAt candles i).low
      let prevClose := (cAt candles (i - 1)).close
      max (high - low) (max |high - prevClose| |low - prevClose|)

/-- `TechnicalIndicators.ATR(candles, period)`: the EMA of the true ranges. -/
def ATR (candles : List Candle) (period : ℕ) : List (Option ℚ) :=
  EMA (trueRanges candles) period

/-- `TechnicalIndicators.VolumeMA(volumes, period)`. -/
def VolumeMA (volumes : List ℚ) (period : ℕ) : List (Option ℚ) :=
  SMA volumes period

/-- Result record of `StochRSI`. -/
structure StochRSIResult where
  k : List (Option ℚ)
  d : List (Option ℚ)
  raw : List (Option ℚ)
  deriving Repr, DecidableEq

/-- `TechnicalIndicators.StochRSI(closes, rsiPeriod, stochPeriod, kPeriod,
dPeriod)`. Note that `%K` is an SMA over the `null`-stripped raw series, so
its length is the number of non-`null` raw entries, not the input length. -/
def StochRSI (closes : List ℚ) (rsiPeriod stochPeriod kPeriod dPeriod : ℕ) :
    StochRSIResult :=
  let rsi := RSI closes rsiPeriod
  let stochRSI := (List.range rsi.length).map fun (i : ℕ) =>
    if (i : ℤ) < (stochPeriod : ℤ) - 1 then none
    else
      match rsi.getD i none with
      | none => none
      | some rv =>
        let rsiSlice := (jsSlice rsi (i + 1 - stochPeriod) (i + 1)).filterMap id
        if rsiSlice.length < stochPeriod then none
        else
          let minRSI := listMin rsiSlice
          let maxRSI := listMax rsiSlice
          if maxRSI = minRSI then some 50
          else some ((rv - minRSI) / (maxRSI - minRSI) * 100)
  let validStoch := stochRSI.filterMap id
  let kLine := SMA validStoch kPeriod
  let dLine := SMA (kLine.filterMap id) dPeriod
  ⟨kLine, dLine, stochRSI⟩

end TechnicalIndicators

namespace SignalEngine

open TechnicalIndicators

/-- The engine configuration (the `this.config` record built by the
constructor; the `config.x || default` merging of the constructor is
represented by `defaultConfig` below). -/
structure Config where
  rsiPeriod : ℕ
  rsiOversold : ℚ
  rsiOverbought : ℚ
  macdFast : ℕ
  macdSlow : ℕ
  macdSignal : ℕ
  emaFast : ℕ
  emaSlow : ℕ
  emaTrend : ℕ
  ema200 : ℕ
  bbPeriod : ℕ
  bbStdDev : ℚ
  atrPeriod : ℕ
  atrMultiplierLong : ℚ
  atrMultiplierShort : ℚ
  adxPeriod : ℕ
  adxTrendThreshold : ℚ
  minScoreForSignal : ℚ
  minConfluence : ℚ
  sidewaysADXThreshold : ℚ
  riskRewardRatio : ℚ
  maxRiskPercent : ℚ
  deriving Repr, DecidableEq

/-- The constructor's default values. -/
def defaultConfig : Config :=
  { rsiPeriod := 14, rsiOversold := 25, rsiOverbought := 75
    macdFast := 12, macdSlow := 26, macdSignal := 9
    emaFast := 9, emaSlow := 21, emaTrend := 50, ema200 := 200
    bbPeriod := 20, bbStdDev := 2
    atrPeriod := 14, atrMultiplierLong := 5/2, atrMultiplierShort := 5/2
    adxPeriod := 14, adxTrendThreshold := 25
    minScoreForSignal := 4, minConfluence := 3, sidewaysADXThreshold := 20
    riskRewardRatio := 3/2, maxRiskPercent := 2 }

/-- The bundle produced by `calculateIndicators`. -/
structure Indicators where
  rsi : List (Option ℚ)
  macd : MACDResult
  emaFast : List (Option ℚ)
  emaSlow : List (Option ℚ)
  emaTrend : List (Option ℚ)
  ema200 : List (Option ℚ)
  bb : BBResult
  atr : List (Option ℚ)
  adx : Option (List (Option ℚ))
  volumeMA : List (Option ℚ)
  deriving Repr, DecidableEq

/-- `calculateIndicators(candles, closes, volumes)`. The engine requires
`TechnicalIndicators` with `TechnicalIndicators.ADX ? … : null`; the
indicator module under `src/` exports no `ADX`, so that guard yields
`null`. -/
def calculateIndicators (sqrtFn : ℚ → ℚ) (cfg : Config) (candles : List Candle)
    (closes volumes : List ℚ) : Indicators :=
  { rsi := RSI closes cfg.rsiPeriod
    macd := MACD closes cfg.macdFast cfg.macdSlow cfg.macdSignal
    emaFast := EMA closes cfg.emaFast
    emaSlow := EMA closes cfg.emaSlow
    emaTrend := EMA closes cfg.emaTrend
    ema200 := EMA closes cfg.ema200
    bb := BollingerBands sqrtFn closes cfg.bbPeriod cfg.bbStdDev
    atr := ATR candles cfg.atrPeriod
    adx := none
    volumeMA := VolumeMA volumes 20 }

/-- The backwards scan of `getLatest`: first non-`null` entry of the
reversed series. -/
def scanLatest : List (Option ℚ) → Option ℚ
  | [] => none
  | none :: rest => scanLatest rest
  | some v :: _ => some v

/-- `getLatest(arr)`: scan from the end for the first non-`null` entry. -/
def getLatest (arr : List (Option ℚ)) : Option ℚ :=
  scanLatest arr.reverse

/-- The backwards scan of `getPrevious`, carrying the `count` of non-`null`
entries already seen. -/
def scanPrevious : List (Option ℚ) → ℕ → Option ℚ
  | [], _ => none
  | none :: rest, count => scanPrevious rest count
  | some v :: rest, count =>
    if count + 1 = 2 then some v else scanPrevious rest (count + 1)

/-- `getPrevious(arr)`: scan from the end for the second non-`null` entry. -/
def getPrevious (arr : List (Option ℚ)) : Option ℚ :=
  scanPrevious arr.reverse 0

/-- The `rsi` component of `getLatestIndicators`. -/
structure RSISnapshot where
  current : Option ℚ
  previous : Option ℚ
  deriving Repr, DecidableEq

/-- The `macd` component of `getLatestIndicators`. -/
structure MACDSnapshot where
  macd : Option ℚ
  signal : Option ℚ
  histogram : Option ℚ
  prevHistogram : Option ℚ
  deriving Repr, DecidableEq

/-- The `ema` component of `getLatestIndicators`. -/
structure EMASnapshot where
  fast : Option ℚ
  slow : Option ℚ
  trend : Option ℚ
  ema200 : Option ℚ
  deriving Repr, DecidableEq

/-- The `bb` component of `getLatestIndicators`. -/
structure BBSnapshot where
  upper : Option ℚ
  middle : Option ℚ
  lower : Option ℚ
  deriving Repr, DecidableEq

/-- The record produced by `getLatestIndicators`. -/
structure LatestIndicators where
  rsi : RSISnapshot
  macd : MACDSnapshot
  ema : EMASnapshot
  bb : BBSnapshot
  atr : Option ℚ
  adx : Option ℚ
  volumeMA : Option ℚ
  deriving Repr, DecidableEq

/-- `getLatestIndicators(indicators)`. A JavaScript array is always truthy,
so `indicators.adx ? getLatest(indicators.adx) : null` scans the array
whenever `adx` is not `null`. -/
def getLatestIndicators (ind : Indicators) : LatestIndicators :=
  { rsi := ⟨getLatest ind.rsi, getPrevious ind.rsi⟩
    macd := ⟨getLatest ind.macd.macd, getLatest ind.macd.signal,
             getLatest ind.macd.histogram, getPrevious ind.macd.histogram⟩
    ema := ⟨getLatest ind.emaFast, getLatest ind.emaSlow,
            getLatest ind.emaTrend, getLatest ind.ema200⟩
    bb := ⟨getLatest ind.bb.upper, getLatest ind.bb.middle, getLatest ind.bb.lower⟩
    atr := getLatest ind.atr
    adx := match ind.adx with
      | some arr => getLatest arr
      | none => none
    volumeMA := getLatest ind.volumeMA }

/-- Signal tags of the per-indicator analyzers (their `signal` string). -/
inductive SigTag where
  | NA | NEUTRAL | LONG | SHORT
  | SLIGHTLY_BULLISH | SLIGHTLY_BEARISH | BULLISH | BEARISH
  | VERY_STRONG_TREND | STRONG_TREND | WEAK_TREND | SIDEWAY
  | STRONG_UPTREND | STRONG_DOWNTREND | UPTREND | DOWNTREND
  deriving Repr, DecidableEq

/-- Result of `analyzeRSI`. -/
structure RSIAnalysis where
  signal : SigTag
  score : ℚ
  value : Option ℚ
  deriving Repr, DecidableEq

/-- `analyzeRSI(rsi)` (thresholds from the configuration; the `35`/`65`
near-bands are literals in the source). -/
def analyzeRSI (cfg : Config) (rsi : RSISnapshot) : RSIAnalysis :=
  match rsi.current with
  | none => ⟨.NA, 0, none⟩
  | some current =>
    if current < cfg.rsiOversold then
      let score : ℚ :=
        if jsTruthy rsi.previous ∧ current > jsNum rsi.previous then 3 else 2
      ⟨.LONG, score, some current⟩
    else if current > cfg.rsiOverbought then
      let score : ℚ :=
        if jsTruthy rsi.previous ∧ current < jsNum rsi.previous then -3 else -2
      ⟨.SHORT, score, some current⟩
    else if current < 35 then ⟨.SLIGHTLY_BULLISH, 1, some current⟩
    else if current > 65 then ⟨.SLIGHTLY_BEARISH, -1, some current⟩
    else ⟨.NEUTRAL, 0, some current⟩

/-- Result of `analyzeMACD` (`macd`/`signalLine`/`histogram` echo the
snapshot values; absent in the no-data case). -/
structure MACDAnalysis where
  signal : SigTag
  score : ℚ
  macd : Option ℚ
  signalLine : Option ℚ
  histogram : Option ℚ
  deriving Repr, DecidableEq

/-- `analyzeMACD(macd)`. The `histogram`/`prevHistogram` comparisons are
JavaScript relational comparisons, which coerce `null` to `0` (`jsNum`);
the cross branches additionally test `prevHistogram !== null`. -/
def analyzeMACD (macd : MACDSnapshot) : MACDAnalysis :=
  match macd.macd, macd.signal with
  | some m, some s =>
    let histogram := macd.histogram
    let prevHistogram := macd.prevHistogram
    if jsNum histogram > 0 ∧ prevHistogram ≠ none ∧ jsNum prevHistogram ≤ 0 then
      ⟨.LONG, 3, some m, some s, histogram⟩
    else if jsNum histogram < 0 ∧ prevHistogram ≠ none ∧ jsNum prevHistogram ≥ 0 then
      ⟨.SHORT, -3, some m, some s, histogram⟩
    else if jsNum histogram > 0 then
      ⟨.BULLISH, if jsNum histogram > jsNum prevHistogram then 2 else 1,
        some m, some s, histogram⟩
    else
      ⟨.BEARISH, if jsNum histogram < jsNum prevHistogram then -2 else -1,
        some m, some s, histogram⟩
  | _, _ => ⟨.NA, 0, none, none, none⟩

/-- Result of `analyzeEMA`. -/
structure EMAAnalysis where
  signal : SigTag
  score : ℚ
  fast : Option ℚ
  slow : Option ℚ
  trend : Option ℚ
  deriving Repr, DecidableEq

/-- `analyzeEMA(ema, currentPrice)`. -/
def analyzeEMA (ema : EMASnapshot) (currentPrice : ℚ) : EMAAnalysis :=
  match ema.fast, ema.slow with
  | some fast, some slow =>
    if fast > slow then
      let score : ℚ :=
        1 + (if jsTruthy ema.trend ∧ currentPrice > jsNum ema.trend then 1 else 0)
      ⟨.BULLISH, score, some fast, some slow, ema.trend⟩
    else
      let score : ℚ :=
        -1 - (if jsTruthy ema.trend ∧ currentPrice < jsNum ema.trend then 1 else 0)
      ⟨.BEARISH, score, some fast, some slow, ema.trend⟩
  | _, _ => ⟨.NA, 0, none, none, none⟩

/-- Result of `analyzeBB`. -/
structure BBAnalysis where
  signal : SigTag
  score : ℚ
  upper : Option ℚ
  middle : Option ℚ
  lower : Option ℚ
  width : Option ℚ
  pricePosition : Option ℚ
  deriving Repr, DecidableEq

/-- `analyzeBB(bb, currentPrice)` (only `upper`/`lower` are `null`-guarded;
`middle` is coerced where used). -/
def analyzeBB (bb : BBSnapshot) (currentPrice : ℚ) : BBAnalysis :=
  match bb.upper, bb.lower with
  | some upper, some lower =>
    let bbWidth := (upper - lower) / jsNum bb.middle * 100
    let pricePosition := (currentPrice - lower) / (upper - lower) * 100
    if currentPrice ≤ lower then
      ⟨.LONG, 2, some upper, bb.middle, some lower, some bbWidth, some pricePosition⟩
    else if currentPrice ≥ upper then
      ⟨.SHORT, -2, some upper, bb.middle, some lower, some bbWidth, some pricePosition⟩
    else if pricePosition < 20 then
      ⟨.BULLISH, 1, some upper, bb.middle, some lower, some bbWidth, some pricePosition⟩
    else if pricePosition > 80 then
      ⟨.BEARISH, -1, some upper, bb.middle, some lower, some bbWidth, some pricePosition⟩
    else
      ⟨.NEUTRAL, 0, some upper, bb.middle, some lower, some bbWidth, some pricePosition⟩
  | _, _ => ⟨.NA, 0, none, none, none, none, none⟩

/-- Result of `analyzeTrend` and `analyzeADX`. -/
structure TrendAnalysis where
  signal : SigTag
  score : ℚ
  deriving Repr, DecidableEq

/-- `analyzeTrend(ema, currentPrice)`: guards only `trend` (JavaScript
truthiness, so a `0` trend EMA is also "no data"); `fast`/`slow` are
coerced if `null`. -/
def analyzeTrend (ema : EMASnapshot) (currentPrice : ℚ) : TrendAnalysis :=
  if ¬ jsTruthy ema.trend then ⟨.NA, 0⟩
  else
    let fast := jsNum ema.fast
    let slow := jsNum ema.slow
    let trend := jsNum ema.trend
    if currentPrice > fast ∧ fast > slow ∧ slow > trend then ⟨.STRONG_UPTREND, 2⟩
    else if currentPrice < fast ∧ fast < slow ∧ slow < trend then ⟨.STRONG_DOWNTREND, -2⟩
    else if currentPrice > trend then ⟨.UPTREND, 1⟩
    else ⟨.DOWNTREND, -1⟩

/-- Result of `analyzeADX`. -/
structure ADXAnalysis where
  signal : SigTag
  score : ℚ
  value : Option ℚ
  deriving Repr, DecidableEq

/-- `analyzeADX(adx)`: classification only, always score `0`. -/
def analyzeADX (adx : Option ℚ) : ADXAnalysis :=
  match adx with
  | none => ⟨.NA, 0, none⟩
  | some a =>
    if a ≥ 50 then ⟨.VERY_STRONG_TREND, 0, some a⟩
    else if a ≥ 25 then ⟨.STRONG_TREND, 0, some a⟩
    else if a ≥ 20 then ⟨.WEAK_TREND, 0, some a⟩
    else ⟨.SIDEWAY, 0, some a⟩

/-- `strength` classification. -/
inductive Strength where
  | WEAK | MODERATE | STRONG
  deriving Repr, DecidableEq

/-- `getSignalStrength(avgScore)`. -/
def getSignalStrength (avgScore : ℚ) : Strength :=
  if |avgScore| ≥ 2 then .STRONG
  else if |avgScore| ≥ 1 then .MODERATE
  else .WEAK

/-- The aggregate produced by `analyzeIndicators` (sub-analyses plus the
derived totals). -/
structure Analysis where
  rsi : RSIAnalysis
  macd : MACDAnalysis
  ema : EMAAnalysis
  bb : BBAnalysis
  trend : TrendAnalysis
  adx : ADXAnalysis
  totalScore : ℚ
  averageScore : ℚ
  strength : Strength
  bullishConfluence : ℕ
  bearishConfluence : ℕ
  confluence : ℕ
  isSideway : Bool
  hasTrend : Bool
  deriving Repr, DecidableEq

/-- `analyzeIndicators(indicators, currentPrice)`. The five main
sub-analyses all carry a `score` field, so `signalCount` is always `5`. -/
def analyzeIndicators (cfg : Config) (latest : LatestIndicators)
    (currentPrice : ℚ) : Analysis :=
  let rsiA := analyzeRSI cfg latest.rsi
  let macdA := analyzeMACD latest.macd
  let emaA := analyzeEMA latest.ema currentPrice
  let bbA := analyzeBB latest.bb currentPrice
  let trendA := analyzeTrend latest.ema currentPrice
  let adxA := analyzeADX latest.adx
  let scores := [rsiA.score, macdA.score, emaA.score, bbA.score, trendA.score]
  let totalScore := listSum scores
  let averageScore := totalScore / 5
  let bullishCount := scores.countP fun s => s > 0
  let bearishCount := scores.countP fun s => s < 0
  { rsi := rsiA, macd := macdA, ema := emaA, bb := bbA, trend := trendA, adx := adxA
    totalScore := totalScore
    averageScore := averageScore
    strength := getSignalStrength averageScore
    bullishConfluence := bullishCount
    bearishConfluence := bearishCount
    confluence := max bullishCount bearishCount
    isSideway := match latest.adx with
      | some a => a < cfg.sidewaysADXThreshold
      | none => false
    hasTrend := match latest.adx with
      | some a => a ≥ cfg.adxTrendThreshold
      | none => false }

/-- Swing point kind of `analyzeMarketStructure`. -/
inductive SwingType where
  | HIGH | LOW
  deriving Repr, DecidableEq

/-- A swing point `{type, price, index}`. -/
structure SwingPoint where
  type : SwingType
  price : ℚ
  index : ℕ
  deriving Repr, DecidableEq

/-- `trend` values of `analyzeMarketStructure`. -/
inductive MSTrend where
  | UPTREND | DOWNTREND | SIDEWAYS | UNKNOWN
  deriving Repr, DecidableEq

/-- `pattern` strings of `analyzeMarketStructure` as tags (`empty` is the
initial `''`, kept when no classification fires). -/
inductive MSPattern where
  | NA | notEnoughSwings | HHHL | LHLL | HHLL | LHHL | empty
  deriving Repr, DecidableEq

/-- Result of `analyzeMarketStructure`. -/
structure MarketStructureResult where
  trend : MSTrend
  pattern : MSPattern
  score : ℚ
  swingPoints : List SwingPoint
  deriving Repr, DecidableEq

/-- `analyzeMarketStructure(candles)`: 5-candle fractal swing points over
the trailing 20 candles, then HH/HL/LH/LL classification of the last 4. -/
def analyzeMarketStructure (candles : List Candle) : MarketStructureResult :=
  if candles.length < 20 then ⟨.UNKNOWN, .NA, 0, []⟩
  else
    let rc := candles.drop (candles.length - 20)
    let swingPoints := (List.range rc.length).flatMap fun (i : ℕ) =>
      if 2 ≤ i ∧ i < rc.length - 2 then
        let curr := cAt rc i
        let prev1 := cAt rc (i - 1)
        let prev2 := cAt rc (i - 2)
        let next1 := cAt rc (i + 1)
        let next2 := cAt rc (i + 2)
        (if curr.high > prev1.high ∧ curr.high > prev2.high ∧
            curr.high > next1.high ∧ curr.high > next2.high then
          [SwingPoint.mk .HIGH curr.high i] else []) ++
        (if curr.low < prev1.low ∧ curr.low < prev2.low ∧
            curr.low < next1.low ∧ curr.low < next2.low then
          [SwingPoint.mk .LOW curr.low i] else [])
      else []
    if swingPoints.length < 4 then ⟨.SIDEWAYS, .notEnoughSwings, 0, []⟩
    else
      let lastPoints := swingPoints.drop (swingPoints.length - 4)
      let highs := (lastPoints.filter fun p => p.type = .HIGH).map fun p => p.price
      let lows := (lastPoints.filter fun p => p.type = .LOW).map fun p => p.price
      if highs.length ≥ 2 ∧ lows.length ≥ 2 then
        let isHH := highs.getD (highs.length - 1) 0 > highs.getD (highs.length - 2) 0
        let isHL := lows.getD (lows.length - 1) 0 > lows.getD (lows.length - 2) 0
        let isLH := highs.getD (highs.length - 1) 0 < highs.getD (highs.length - 2) 0
        let isLL := lows.getD (lows.length - 1) 0 < lows.getD (lows.length - 2) 0
        if isHH ∧ isHL then ⟨.UPTREND, .HHHL, 2, lastPoints⟩
        else if isLH ∧ isLL then ⟨.DOWNTREND, .LHLL, -2, lastPoints⟩
        else if isHH ∧ isLL then ⟨.SIDEWAYS, .HHLL, 0, lastPoints⟩
        else if isLH ∧ isHL then ⟨.SIDEWAYS, .LHHL, 0, lastPoints⟩
        else ⟨.SIDEWAYS, .empty, 0, lastPoints⟩
      else ⟨.SIDEWAYS, .empty, 0, lastPoints⟩

/-- `signal` tags of `analyzeVolumeConfirmation`. -/
inductive VolTag where
  | NA | NORMAL | VERY_HIGH | HIGH | LOW
  deriving Repr, DecidableEq

/-- Result of `analyzeVolumeConfirmation`. -/
structure VolumeConfirmationResult where
  ratio : ℚ
  signal : VolTag
  score : ℚ
  avgVolume : Option ℚ
  currentVolume : Option ℚ
  deriving Repr, DecidableEq

/-- `analyzeVolumeConfirmation(candles, volumes)`. -/
def analyzeVolumeConfirmation (_candles : List Candle) (volumes : List ℚ) :
    VolumeConfirmationResult :=
  if volumes.length < 20 then ⟨0, .NA, 0, none, none⟩
  else
    let recentVolumes := volumes.drop (volumes.length - 20)
    let avgVolume := listSum recentVolumes / (recentVolumes.length : ℚ)
    let currentVolume := volumes.getD (volumes.length - 1) 0
    let ratio := currentVolume / avgVolume
    if ratio ≥ 2 then ⟨ratio, .VERY_HIGH, 2, some avgVolume, some currentVolume⟩
    else if ratio ≥ 3/2 then ⟨ratio, .HIGH, 1, some avgVolume, some currentVolume⟩
    else if ratio < 1/2 then ⟨ratio, .LOW, -1, some avgVolume, some currentVolume⟩
    else ⟨ratio, .NORMAL, 0, some avgVolume, some currentVolume⟩

/-- An order-block zone `{high, low, index}`. -/
structure OBZone where
  high : ℚ
  low : ℚ
  index : ℕ
  deriving Repr, DecidableEq

/-- `type` of `findOrderBlocks`. -/
inductive OBType where
  | NONE | BULLISH | BEARISH
  deriving Repr, DecidableEq

/-- Result of `findOrderBlocks`. -/
structure OrderBlockResult where
  type : OBType
  zone : Option OBZone
  score : ℚ
  deriving Repr, DecidableEq

/-- `findOrderBlocks(candles, currentPrice)`: scans the trailing 30 candles;
each loop keeps reassigning, so the match at the greatest index wins. -/
def findOrderBlocks (candles : List Candle) (currentPrice : ℚ) :
    OrderBlockResult :=
  if candles.length < 30 then ⟨.NONE, none, 0⟩
  else
    let rc := candles.drop (candles.length - 30)
    let bullishOB := (List.range rc.length).foldl
      (fun acc (i : ℕ) =>
        if 5 ≤ i ∧ i < rc.length - 3 then
          let candle := cAt rc i
          let nextCandles := jsSlice rc (i + 1) (i + 4)
          if candle.close < candle.open_ ∧
             (nextCandles.any fun c => c.close > candle.high * (101/100)) ∧
             currentPrice > candle.low ∧ currentPrice < candle.high * (105/100) then
            some (OBZone.mk candle.high candle.low i)
          else acc
        else acc) none
    let bearishOB := (List.range rc.length).foldl
      (fun acc (i : ℕ) =>
        if 5 ≤ i ∧ i < rc.length - 3 then
          let candle := cAt rc i
          let nextCandles := jsSlice rc (i + 1) (i + 4)
          if candle.close > candle.open_ ∧
             (nextCandles.any fun c => c.close < candle.low * (99/100)) ∧
             currentPrice < candle.high ∧ currentPrice > candle.low * (95/100) then
            some (OBZone.mk candle.high candle.low i)
          else acc
        else acc) none
    match bullishOB, bearishOB with
    | some b, none => ⟨.BULLISH, some b, 2⟩
    | some b, some be =>
      if b.index > be.index then ⟨.BULLISH, some b, 2⟩ else ⟨.BEARISH, some be, -2⟩
    | none, some be => ⟨.BEARISH, some be, -2⟩
    | none, none => ⟨.NONE, none, 0⟩

/-- `type` of `analyzePullback`. -/
inductive PullbackType where
  | NONE | BULLISH_PULLBACK | BEARISH_PULLBACK | SHALLOW_PULLBACK | DEEP_PULLBACK
  deriving Repr, DecidableEq

/-- Result of `analyzePullback`. -/
structure PullbackResult where
  type : PullbackType
  depth : ℚ
  score : ℚ
  deriving Repr, DecidableEq

/-- `analyzePullback(candles, currentPrice)`: Fibonacci retracement buckets
over the trailing 20-candle range. -/
def analyzePullback (candles : List Candle) (currentPrice : ℚ) :
    PullbackResult :=
  if candles.length < 20 then ⟨.NONE, 0, 0⟩
  else
    let rc := candles.drop (candles.length - 20)
    let recentHigh := listMax (rc.map fun c => c.high)
    let recentLow := listMin (rc.map fun c => c.low)
    let range := recentHigh - recentLow
    if range = 0 then ⟨.NONE, 0, 0⟩
    else
      let distanceFromHigh := recentHigh - currentPrice
      let distanceFromLow := currentPrice - recentLow
      if distanceFromHigh > distanceFromLow then
        let depth := distanceFromHigh / range * 100
        if (191/5 : ℚ) ≤ depth ∧ depth ≤ 309/5 then ⟨.BULLISH_PULLBACK, depth, 2⟩
        else if (118/5 : ℚ) ≤ depth ∧ depth < 191/5 then ⟨.SHALLOW_PULLBACK, depth, 1⟩
        else if depth > 309/5 then ⟨.DEEP_PULLBACK, depth, -1⟩
        else ⟨.NONE, depth, 0⟩
      else
        let depth := distanceFromLow / range * 100
        if (191/5 : ℚ) ≤ depth ∧ depth ≤ 309/5 then ⟨.BEARISH_PULLBACK, depth, -2⟩
        else if (118/5 : ℚ) ≤ depth ∧ depth < 191/5 then ⟨.SHALLOW_PULLBACK, depth, -1⟩
        else if depth > 309/5 then ⟨.DEEP_PULLBACK, depth, 1⟩
        else ⟨.NONE, depth, 0⟩

/-- The smart-money bundle of `analyzeSmartMoney`. -/
structure SmartMoneyResult where
  marketStructure : MarketStructureResult
  volumeConfirmation : VolumeConfirmationResult
  orderBlock : OrderBlockResult
  pullback : PullbackResult
  deriving Repr, DecidableEq

/-- `analyzeSmartMoney(candles, volumes, currentPrice)`. -/
def analyzeSmartMoney (candles : List Candle) (volumes : List ℚ)
    (currentPrice : ℚ) : SmartMoneyResult :=
  { marketStructure := analyzeMarketStructure candles
    volumeConfirmation := analyzeVolumeConfirmation candles volumes
    orderBlock := findOrderBlocks candles currentPrice
    pullback := analyzePullback candles currentPrice }

/-- Descending insertion used for `supports.sort((a, b) => b - a)`. -/
def insertDesc (x : ℚ) : List ℚ → List ℚ
  | [] => [x]
  | y :: ys => if x ≥ y then x :: y :: ys else y :: insertDesc x ys

/-- Descending sort. -/
def sortDesc (l : List ℚ) : List ℚ :=
  l.foldr insertDesc []

/-- Ascending insertion used for `resistances.sort((a, b) => a - b)`. -/
def insertAsc (x : ℚ) : List ℚ → List ℚ
  | [] => [x]
  | y :: ys => if x ≤ y then x :: y :: ys else y :: insertAsc x ys

/-- Ascending sort. -/
def sortAsc (l : List ℚ) : List ℚ :=
  l.foldr insertAsc []

/-- The nearest-support loop: keeps the level strictly below `price` whose
distance is strictly smaller than the best so far. -/
def nearestBelow (price : ℚ) (levels : List ℚ) : Option ℚ :=
  levels.foldl
    (fun acc s =>
      if s < price then
        match acc with
        | none => some s
        | some b => if price - s < price - b then some s else acc
      else acc) none

/-- The nearest-resistance loop: strictly above `price`, smallest distance. -/
def nearestAbove (price : ℚ) (levels : List ℚ) : Option ℚ :=
  levels.foldl
    (fun acc r =>
      if r > price then
        match acc with
        | none => some r
        | some b => if r - price < b - price then some r else acc
      else acc) none

/-- The nearest-support value after the fallback: the found level if truthy
(`if (!nearestSupport)` also replaces a found level of exactly `0`), else
`price · 0.97`. -/
def resolveNearestSupport (currentPrice : ℚ) (supports : List ℚ) : Option ℚ :=
  let found := nearestBelow currentPrice supports
  if jsTruthy found then found else some (currentPrice * (97/100))

/-- The nearest-resistance value after the fallback to `price · 1.03`. -/
def resolveNearestResistance (currentPrice : ℚ) (resistances : List ℚ) : Option ℚ :=
  let found := nearestAbove currentPrice resistances
  if jsTruthy found then found else some (currentPrice * (103/100))

/-- Result of `findSupportResistance`. -/
structure SupportResistanceLevels where
  supports : List ℚ
  resistances : List ℚ
  nearestSupport : Option ℚ
  nearestResistance : Option ℚ
  supportDistance : Option ℚ
  resistanceDistance : Option ℚ
  deriving Repr, DecidableEq

/-- `findSupportResistance(candles, currentPrice)`: 3-candle-window fractal
swing lows/highs over the trailing 50 candles plus the trailing-20 extremes,
nearest level strictly below/above the price, with `price·0.97`/`price·1.03`
fallbacks. `if (!nearestSupport)` is a truthiness test, so a found level of
exactly `0` is also replaced by the fallback. -/
def findSupportResistance (candles : List Candle) (currentPrice : ℚ) :
    SupportResistanceLevels :=
  if candles.length < 50 then ⟨[], [], none, none, none, none⟩
  else
    let rc := candles.drop (candles.length - 50)
    let supports0 := (List.range rc.length).filterMap fun (i : ℕ) =>
      if 3 ≤ i ∧ i < rc.length - 3 ∧
         (([1, 2, 3] : List ℕ).all fun j =>
           decide ((cAt rc i).low < (cAt rc (i - j)).low) &&
           decide ((cAt rc i).low < (cAt rc (i + j)).low)) then
        some (cAt rc i).low
      else none
    let resistances0 := (List.range rc.length).filterMap fun (i : ℕ) =>
      if 3 ≤ i ∧ i < rc.length - 3 ∧
         (([1, 2, 3] : List ℕ).all fun j =>
           decide ((cAt rc i).high > (cAt rc (i - j)).high) &&
           decide ((cAt rc i).high > (cAt rc (i + j)).high)) then
        some (cAt rc i).high
      else none
    let last20 := candles.drop (candles.length - 20)
    let recentLow := listMin (last20.map fun c => c.low)
    let recentHigh := listMax (last20.map fun c => c.high)
    let supports := if supports0.contains recentLow then supports0
      else supports0 ++ [recentLow]
    let resistances := if resistances0.contains recentHigh then resistances0
      else resistances0 ++ [recentHigh]
    let nearestSupport := resolveNearestSupport currentPrice supports
    let nearestResistance := resolveNearestResistance currentPrice resistances
    { supports := sortDesc supports
      resistances := sortAsc resistances
      nearestSupport := nearestSupport
      nearestResistance := nearestResistance
      supportDistance := some ((currentPrice - jsNum nearestSupport) / currentPrice * 100)
      resistanceDistance := some ((jsNum nearestResistance - currentPrice) / currentPrice * 100) }

/-- `action` of the emitted signal. -/
inductive Action where
  | LONG | SHORT | WAIT
  deriving Repr, DecidableEq

/-- `leverageRisk` classification. -/
inductive LeverageRisk where
  | LOW | MODERATE | HIGH
  deriving Repr, DecidableEq

/-- The entries of the `reasons` / `rejectionReasons` string arrays of
`generateSignal`, as tags carrying the interpolated numeric payloads
(the surrounding message text is display-only). -/
inductive Reason where
  | sidewayReject (threshold : ℚ)
  | scoreReject (totalScore minScore : ℚ)
  | confluenceReject (confluence : ℕ) (minConfluence : ℚ)
  | noSupportReject
  | noResistanceReject
  | longAtSupport
  | veryStrongLong
  | goodLong
  | shortAtResistance
  | veryStrongShort
  | goodShort
  | rsiDetail
  | macdDetail
  | emaDetail
  | bbDetail
  | trendDetail
  | bullishConfluenceInfo (n : ℕ)
  | bearishConfluenceInfo (n : ℕ)
  | supportInfo (s : Option ℚ)
  | resistanceInfo (r : Option ℚ)
  | noSignalWait
  | notConverged
  | scoreInfo (totalScore : ℚ) (bullish bearish : ℕ)
  | weakTrendInfo
  | leverageInfo (leverage : ℤ) (risk : LeverageRisk)
  | leverageDetail (riskPercent : ℚ) (leverage : ℤ) (accountRiskPercent : ℚ)
  deriving Repr, DecidableEq

/-- `getLongReasons(analysis)`: the descriptions of the sub-analyses with a
strictly positive score, in fixed order. -/
def getLongReasons (analysis : Analysis) : List Reason :=
  (if analysis.rsi.score > 0 then [Reason.rsiDetail] else []) ++
  (if analysis.macd.score > 0 then [Reason.macdDetail] else []) ++
  (if analysis.ema.score > 0 then [Reason.emaDetail] else []) ++
  (if analysis.bb.score > 0 then [Reason.bbDetail] else []) ++
  (if analysis.trend.score > 0 then [Reason.trendDetail] else [])

/-- `getShortReasons(analysis)`: the descriptions of the sub-analyses with a
strictly negative score. -/
def getShortReasons (analysis : Analysis) : List Reason :=
  (if analysis.rsi.score < 0 then [Reason.rsiDetail] else []) ++
  (if analysis.macd.score < 0 then [Reason.macdDetail] else []) ++
  (if analysis.ema.score < 0 then [Reason.emaDetail] else []) ++
  (if analysis.bb.score < 0 then [Reason.bbDetail] else []) ++
  (if analysis.trend.score < 0 then [Reason.trendDetail] else [])

/-- The three filter pushes of `generateSignal`, in push order: sideways
market, minimum score, confluence. -/
def rejectionReasonsOf (cfg : Config) (analysis : Analysis) : List Reason :=
  (if analysis.isSideway then [Reason.sidewayReject cfg.sidewaysADXThreshold] else []) ++
  (if |analysis.totalScore| < cfg.minScoreForSignal then
    [Reason.scoreReject analysis.totalScore cfg.minScoreForSignal] else []) ++
  (let confluence : ℕ := if analysis.totalScore > 0 then analysis.bullishConfluence
     else analysis.bearishConfluence
   if (confluence : ℚ) < cfg.minConfluence then
     [Reason.confluenceReject confluence cfg.minConfluence] else [])

/-- The part of the signal assigned inside the `if`/`else if`/`else` chain
of `generateSignal` (the mutable `action`, `confidence`, `stopLoss`,
`takeProfit`, `reason` locals after the chain). -/
structure SignalCore where
  action : Action
  confidence : ℚ
  stopLoss : Option ℚ
  takeProfit : Option ℚ
  reason : List Reason
  deriving Repr, DecidableEq

/-- The LONG stop-loss: 0.3% below the nearest support, widened to exactly
1.5% below the entry when the support is closer than that. -/
def longStopLoss (currentPrice : ℚ) (nearestSupport : Option ℚ) : ℚ :=
  let stopLoss := jsNum nearestSupport * (997/1000)
  let minSLDistance := currentPrice * (15/1000)
  if currentPrice - stopLoss < minSLDistance then currentPrice - minSLDistance
  else stopLoss

/-- The LONG take-profit: 0.2% below the nearest resistance when that
resistance is more than 0.5% above the entry, else a 1.5 R:R target; a
second check re-derives the R:R target if the result is not more than
0.5% above the entry. -/
def longTakeProfit (currentPrice stopLoss : ℚ) (nearestResistance : Option ℚ) : ℚ :=
  let slDistance := currentPrice - stopLoss
  let takeProfit :=
    if jsTruthy nearestResistance ∧
       jsNum nearestResistance > currentPrice * (1005/1000) then
      jsNum nearestResistance * (998/1000)
    else currentPrice + slDistance * (3/2)
  if takeProfit ≤ currentPrice * (1005/1000) then currentPrice + slDistance * (3/2)
  else takeProfit

/-- The SHORT stop-loss: 0.3% above the nearest resistance, widened to
exactly 1.5% above the entry when the resistance is closer than that. -/
def shortStopLoss (currentPrice : ℚ) (nearestResistance : Option ℚ) : ℚ :=
  let stopLoss := jsNum nearestResistance * (1003/1000)
  let minSLDistanceShort := currentPrice * (15/1000)
  if stopLoss - currentPrice < minSLDistanceShort then
    currentPrice + minSLDistanceShort
  else stopLoss

/-- The SHORT take-profit, mirroring `longTakeProfit`. -/
def shortTakeProfit (currentPrice stopLoss : ℚ) (nearestSupport : Option ℚ) : ℚ :=
  let slDistanceShort := stopLoss - currentPrice
  let takeProfit :=
    if jsTruthy nearestSupport ∧
       jsNum nearestSupport < currentPrice * (995/1000) then
      jsNum nearestSupport * (1002/1000)
    else currentPrice - slDistanceShort * (3/2)
  if takeProfit ≥ currentPrice * (995/1000) then
    currentPrice - slDistanceShort * (3/2)
  else takeProfit

/-- The LONG branch of `generateSignal` (entered when
`totalScore ≥ minScoreForSignal`, all filters passed and
`bullishConfluence ≥ minConfluence`): the extra support check, then the
SL/TP derivation of `longStopLoss`/`longTakeProfit`. -/
def longBranch (cfg : Config) (analysis : Analysis) (currentPrice : ℚ)
    (srLevels : SupportResistanceLevels) (nearSupport : Bool) : SignalCore :=
  let rejections2 := rejectionReasonsOf cfg analysis ++
    (if ¬ jsTruthy srLevels.nearestSupport then [Reason.noSupportReject] else [])
  if rejections2 = [] then
    let confidence := min (analysis.totalScore / 10 * 100 + 30 +
      (analysis.bullishConfluence : ℚ) * 5) 95
    let confidence := if nearSupport then min (confidence + 10) 95 else confidence
    let stopLoss := longStopLoss currentPrice srLevels.nearestSupport
    let takeProfit := longTakeProfit currentPrice stopLoss srLevels.nearestResistance
    let reason := getLongReasons analysis
    let reason :=
      if nearSupport then Reason.longAtSupport :: reason
      else if analysis.totalScore ≥ 7 ∧ analysis.bullishConfluence ≥ 4 then
        Reason.veryStrongLong :: reason
      else Reason.goodLong :: reason
    let reason := reason ++
      [Reason.bullishConfluenceInfo analysis.bullishConfluence,
       Reason.supportInfo srLevels.nearestSupport,
       Reason.resistanceInfo srLevels.nearestResistance]
    ⟨.LONG, confidence, some stopLoss, some takeProfit, reason⟩
  else ⟨.WAIT, 0, none, none, []⟩

/-- The SHORT branch of `generateSignal`, mirroring `longBranch`. -/
def shortBranch (cfg : Config) (analysis : Analysis) (currentPrice : ℚ)
    (srLevels : SupportResistanceLevels) (nearResistance : Bool) : SignalCore :=
  let rejections2 := rejectionReasonsOf cfg analysis ++
    (if ¬ jsTruthy srLevels.nearestResistance then [Reason.noResistanceReject] else [])
  if rejections2 = [] then
    let confidence := min (|analysis.totalScore| / 10 * 100 + 30 +
      (analysis.bearishConfluence : ℚ) * 5) 95
    let confidence := if nearResistance then min (confidence + 10) 95 else confidence
    let stopLoss := shortStopLoss currentPrice srLevels.nearestResistance
    let takeProfit := shortTakeProfit currentPrice stopLoss srLevels.nearestSupport
    let reason := getShortReasons analysis
    let reason :=
      if nearResistance then Reason.shortAtResistance :: reason
      else if analysis.totalScore ≤ -7 ∧ analysis.bearishConfluence ≥ 4 then
        Reason.veryStrongShort :: reason
      else Reason.goodShort :: reason
    let reason := reason ++
      [Reason.bearishConfluenceInfo analysis.bearishConfluence,
       Reason.supportInfo srLevels.nearestSupport,
       Reason.resistanceInfo srLevels.nearestResistance]
    ⟨.SHORT, confidence, some stopLoss, some takeProfit, reason⟩
  else ⟨.WAIT, 0, none, none, []⟩

/-- The final `else` of `generateSignal`: WAIT with the accumulated
rejection reasons (or a generic no-convergence note) and the score line. -/
def waitBranch (analysis : Analysis) (rejections : List Reason) : SignalCore :=
  let reason := [Reason.noSignalWait] ++
    (if rejections ≠ [] then rejections else [Reason.notConverged]) ++
    [Reason.scoreInfo analysis.totalScore analysis.bullishConfluence
      analysis.bearishConfluence] ++
    (if ¬ analysis.hasTrend ∧ ¬ analysis.isSideway then [Reason.weakTrendInfo] else [])
  ⟨.WAIT, 0, none, none, reason⟩

/-- The emitted `Signal` record (formatted string fields keep their exact
numeric values; `reasons` keeps the tags). -/
structure Signal where
  action : Action
  confidence : ℚ
  strength : Strength
  entry : ℚ
  stopLoss : Option ℚ
  takeProfit : Option ℚ
  riskPercent : Option ℚ
  rewardPercent : Option ℚ
  riskReward : Option ℚ
  leverage : ℤ
  leverageRisk : LeverageRisk
  atr : Option ℚ
  atrPercent : Option ℚ
  totalScore : ℚ
  averageScore : ℚ
  reasons : List Reason
  deriving Repr, DecidableEq

/-- The `if`/`else if`/`else` decision chain of `generateSignal`: LONG when
the score reaches `minScoreForSignal`, every filter passed and the bullish
confluence reaches `minConfluence`; the mirrored SHORT chain; otherwise the
WAIT branch. -/
def signalCore (cfg : Config) (analysis : Analysis) (currentPrice : ℚ)
    (srLevels : SupportResistanceLevels) (nearSupport nearResistance : Bool) :
    SignalCore :=
  if analysis.totalScore ≥ cfg.minScoreForSignal ∧
     rejectionReasonsOf cfg analysis = [] ∧
     (analysis.bullishConfluence : ℚ) ≥ cfg.minConfluence then
    longBranch cfg analysis currentPrice srLevels nearSupport
  else if analysis.totalScore ≤ -cfg.minScoreForSignal ∧
     rejectionReasonsOf cfg analysis = [] ∧
     (analysis.bearishConfluence : ℚ) ≥ cfg.minConfluence then
    shortBranch cfg analysis currentPrice srLevels nearResistance
  else waitBranch analysis (rejectionReasonsOf cfg analysis)

/-- `nearSupport`: truthy nearest support closer than 1.5% below the
entry. -/
def nearSupportOf (currentPrice : ℚ) (srLevels : SupportResistanceLevels) : Bool :=
  jsTruthy srLevels.nearestSupport &&
    decide ((currentPrice - jsNum srLevels.nearestSupport) / currentPrice < 15/1000)

/-- `nearResistance`: truthy nearest resistance closer than 1.5% above the
entry. -/
def nearResistanceOf (currentPrice : ℚ) (srLevels : SupportResistanceLevels) : Bool :=
  jsTruthy srLevels.nearestResistance &&
    decide ((jsNum srLevels.nearestResistance - currentPrice) / currentPrice < 15/1000)

/-- `riskPercent = stopLoss ? |…| : null` (`0` is falsy). -/
def riskPercentOf (currentPrice : ℚ) (stopLoss : Option ℚ) : Option ℚ :=
  if jsTruthy stopLoss then
    some |(currentPrice - jsNum stopLoss) / currentPrice * 100| else none

/-- `rewardPercent = takeProfit ? |…| : null`. -/
def rewardPercentOf (currentPrice : ℚ) (takeProfit : Option ℚ) : Option ℚ :=
  if jsTruthy takeProfit then
    some |(jsNum takeProfit - currentPrice) / currentPrice * 100| else none

/-- The leverage block of `generateSignal`: when the action is not WAIT and
`riskPercent` is truthy, the clamped tiered leverage with its risk label
and the two appended leverage reasons; otherwise the initial values
(`leverage = 1`) and the unchanged reasons. -/
def leverageOf (analysis : Analysis) (coreAction : Action)
    (riskPercent : Option ℚ) (baseReason : List Reason) :
    ℤ × LeverageRisk × List Reason :=
  if coreAction ≠ .WAIT ∧ jsTruthy riskPercent then
    let rp := jsNum riskPercent
    let absScore := |analysis.totalScore|
    let confluenceScore : ℕ := if analysis.totalScore > 0 then
      analysis.bullishConfluence else analysis.bearishConfluence
    let calculatedLeverage : ℤ := ⌊(25 : ℚ) / rp⌋
    let desiredLeverage : ℤ :=
      if absScore ≥ 7 ∧ confluenceScore ≥ 4 then 15
      else if absScore ≥ 5 ∧ confluenceScore ≥ 3 then 12
      else if absScore ≥ 4 ∧ confluenceScore ≥ 3 then 10
      else 8
    let suggestedLeverage := min desiredLeverage calculatedLeverage
    let suggestedLeverage := max suggestedLeverage 5
    let suggestedLeverage := min suggestedLeverage 15
    let accountRiskPercent := rp * (suggestedLeverage : ℚ)
    let leverageRisk :=
      if accountRiskPercent ≥ 35 then LeverageRisk.HIGH
      else if accountRiskPercent ≥ 25 then LeverageRisk.MODERATE
      else LeverageRisk.LOW
    (suggestedLeverage, leverageRisk,
      baseReason ++ [Reason.leverageInfo suggestedLeverage leverageRisk,
        Reason.leverageDetail rp suggestedLeverage accountRiskPercent])
  else (1, .LOW, baseReason)

/-- `generateSignal(analysis, currentPrice, candles, indicators)`: the
filter pipeline, the LONG/SHORT/WAIT decision with SL/TP, risk/reward and
the clamped leverage suggestion (skipped when `riskPercent` is falsy). -/
def generateSignal (cfg : Config) (analysis : Analysis) (currentPrice : ℚ)
    (candles : List Candle) (indicators : Indicators) : Signal :=
  let atr := (getLatestIndicators indicators).atr
  let srLevels := findSupportResistance candles currentPrice
  let core := signalCore cfg analysis currentPrice srLevels
    (nearSupportOf currentPrice srLevels) (nearResistanceOf currentPrice srLevels)
  let riskPercent := riskPercentOf currentPrice core.stopLoss
  let rewardPercent := rewardPercentOf currentPrice core.takeProfit
  let levPart := leverageOf analysis core.action riskPercent core.reason
  { action := core.action
    confidence := core.confidence
    strength := analysis.strength
    entry := currentPrice
    stopLoss := core.stopLoss
    takeProfit := core.takeProfit
    riskPercent := riskPercent
    rewardPercent := rewardPercent
    riskReward := if jsTruthy riskPercent ∧ jsTruthy rewardPercent then
      some (jsNum rewardPercent / jsNum riskPercent) else none
    leverage := levPart.1
    leverageRisk := levPart.2.1
    atr := if jsTruthy atr then atr else none
    atrPercent := if jsTruthy atr then some (jsNum atr / currentPrice * 100) else none
    totalScore := analysis.totalScore
    averageScore := analysis.averageScore
    reasons := levPart.2.2 }

/-- The full record returned by a successful `analyze` call. -/
structure AnalysisReport where
  timestamp : String
  symbol : String
  currentPrice : ℚ
  indicators : LatestIndicators
  analysis : Analysis
  signal : Signal
  marketStructure : MarketStructureResult
  volumeConfirmation : VolumeConfirmationResult
  orderBlock : OrderBlockResult
  pullback : PullbackResult
  deriving Repr, DecidableEq

/-- `analyze` returns either the insufficiency error object (fewer than 50
candles) or the full report. -/
inductive AnalyzeResult where
  | insufficientData
  | report (r : AnalysisReport)
  deriving Repr, DecidableEq

/-- `analyze(candles)`. The only clock read of the engine
(`new Date().toISOString()`) is the explicit input `now`; `Math.sqrt` is
the abstract `sqrtFn`. -/
def analyze (sqrtFn : ℚ → ℚ) (cfg : Config) (now : String)
    (candles : List Candle) : AnalyzeResult :=
  if candles.length < 50 then .insufficientData
  else
    let closes := candles.map fun c => c.close
    let volumes := candles.map fun c => c.volume
    let indicators := calculateIndicators sqrtFn cfg candles closes volumes
    let currentPrice := closes.getD (closes.length - 1) 0
    let latestIndicators := getLatestIndicators indicators
    let analysis := analyzeIndicators cfg latestIndicators currentPrice
    let smartMoney := analyzeSmartMoney candles volumes currentPrice
    let signal := generateSignal cfg analysis currentPrice candles indicators
    .report
      { timestamp := now
        symbol := match candles with
          | [] => "UNKNOWN"
          | c :: _ => if c.symbol = "" then "UNKNOWN" else c.symbol
        currentPrice := currentPrice
        indicators := latestIndicators
        analysis := analysis
        signal := signal
        marketStructure := smartMoney.marketStructure
        volumeConfirmation := smartMoney.volumeConfirmation
        orderBlock := smartMoney.orderBlock
        pullback := smartMoney.pullback }

/-- Replace only the advisory `timestamp` field of an `analyze` result. -/
def setTimestamp : AnalyzeResult → String → AnalyzeResult
  | .insufficientData, _ => .insufficientData
  | .report r, t => .report { r with timestamp := t }

end SignalEngine

/- Batteries marks the `Rat` arithmetic primitives irreducible, which blocks
`decide` from evaluating the embedding on concrete inputs; re-enable
unfolding for the concrete witnesses and counterexamples below. -/
attribute [local semireducible] Rat.add Rat.sub Rat.mul Rat.inv Rat.ofScientific

section BasicLemmas

lemma foldl_add_eq (l : List ℚ) : ∀ acc : ℚ, l.foldl (· + ·) acc = acc + listSum l := by
  induction l with
  | nil => intro acc; simp [listSum]
  | cons x t ih =>
    intro acc
    simp only [listSum, List.foldl_cons] at *
    rw [ih (acc + x), ih (0 + x)]
    ring

lemma listSum_cons (x : ℚ) (l : List ℚ) : listSum (x :: l) = x + listSum l := by
  show (x :: l).foldl (· + ·) 0 = x + listSum l
  rw [List.foldl_cons, foldl_add_eq]
  ring

lemma listSum_nonneg {l : List ℚ} (h : ∀ x ∈ l, 0 ≤ x) : 0 ≤ listSum l := by
  induction l with
  | nil => simp [listSum]
  | cons x t ih =>
    rw [listSum_cons]
    have hx := h x (by simp)
    have ht := ih fun y hy => h y (by simp [hy])
    linarith

lemma listSum_replicate (n : ℕ) (P : ℚ) :
    listSum (List.replicate n P) = n * P := by
  induction n with
  | zero => simp [listSum]
  | succ k ih =>
    rw [List.replicate_succ, listSum_cons, ih]
    push_cast
    ring

lemma jsTruthy_some_iff {v : ℚ} : jsTruthy (some v) = true ↔ v ≠ 0 := by
  simp [jsTruthy]

lemma jsTruthy_eq_true {o : Option ℚ} (h : jsTruthy o = true) :
    ∃ v, o = some v ∧ v ≠ 0 := by
  cases o with
  | none => simp [jsTruthy] at h
  | some v => exact ⟨v, rfl, by simpa [jsTruthy] using h⟩

end BasicLemmas

section IndicatorLemmas

open TechnicalIndicators

lemma SMA_length (data : List ℚ) (p : ℕ) : (SMA data p).length = data.length := by
  simp [SMA]

lemma SMA_getElem? (data : List ℚ) (p i : ℕ) (h : i < data.length) :
    (SMA data p)[i]? =
      some (if (i : ℤ) < (p : ℤ) - 1 then none
        else some (listSum (jsSlice data (i + 1 - p) (i + 1)) / p)) := by
  simp [SMA, List.getElem?_map, List.getElem?_range, h]

lemma emaLoop_length (m : ℚ) (p : ℕ) :
    ∀ (data : List ℚ) (i : ℕ) (e : ℚ), (emaLoop m p data i e).length = data.length := by
  intro data
  induction data with
  | nil => intro i e; simp [emaLoop]
  | cons x t ih =>
    intro i e
    rw [emaLoop]
    split
    · simpa using ih (i + 1) e
    · split
      · simpa using ih (i + 1) e
      · simpa using ih (i + 1) ((x - e) * m + e)

lemma emaLoop_getElem?_none_iff (m : ℚ) (p : ℕ) :
    ∀ (data : List ℚ) (k i : ℕ) (e : ℚ), k < data.length →
      ((emaLoop m p data i e)[k]? = some none ↔ ((i + k : ℕ) : ℤ) < (p : ℤ) - 1) := by
  intro data
  induction data with
  | nil => intro k i e hk; simp at hk
  | cons x t ih =>
    intro k i e hk
    cases k with
    | zero =>
      rw [emaLoop]
      split
      · simp
        omega
      · split
        · simp
          omega
        · simp
          omega
    | succ k' =>
      have hk' : k' < t.length := by
        simp at hk
        omega
      have harith : i + 1 + k' = i + (k' + 1) := by omega
      rw [emaLoop]
      split
      · simpa [harith] using ih k' (i + 1) e hk'
      · split
        · simpa [harith] using ih k' (i + 1) e hk'
        · simpa [harith] using ih k' (i + 1) ((x - e) * m + e) hk'

lemma emaLoop_const (m : ℚ) (p : ℕ) (P : ℚ) :
    ∀ (len k i : ℕ), k < len → ¬ (((i + k : ℕ) : ℤ) < (p : ℤ) - 1) →
      (emaLoop m p (List.replicate len P) i P)[k]? = some (some P) := by
  intro len
  induction len with
  | zero => intro k i hk; omega
  | succ l ih =>
    intro k i hk hge
    rw [List.replicate_succ, emaLoop]
    have hPP : (P - P) * m + P = P := by ring
    cases k with
    | zero =>
      split
      · rename_i h1
        exfalso
        push_cast at h1 hge
        omega
      · split
        · simp
        · simp [hPP]
    | succ k' =>
      have hk' : k' < l := by omega
      have hge' : ¬ (((i + 1 + k' : ℕ) : ℤ) < (p : ℤ) - 1) := by
        push_cast at hge ⊢
        omega
      split
      · simpa using ih k' (i + 1) hk' hge'
      · split
        · simpa using ih k' (i + 1) hk' hge'
        · simpa [hPP] using ih k' (i + 1) hk' hge'

lemma EMA_length (data : List ℚ) (p : ℕ) : (EMA data p).length = data.length := by
  simp [EMA, emaLoop_length]

end IndicatorLemmas

section ClaimC7

open TechnicalIndicators

/-- **C7**: for every period `n ≥ 1` and every constant input series of value
`P` with length ≥ `n`, `EMA(series, n)` equals exactly `P` at index `n − 1`
and at every later index. -/
theorem C7_ema_constant_series (P : ℚ) (n len i : ℕ)
    (hn : 1 ≤ n) (hlen : n ≤ len) (hi1 : n - 1 ≤ i) (hi2 : i < len) :
    (EMA (List.replicate len P) n)[i]? = some (some P) := by
  have hseed : listSum (jsSlice (List.replicate len P) 0 n) / (n : ℚ) = P := by
    have htake : jsSlice (List.replicate len P) 0 n = List.replicate n P := by
      simp [jsSlice, List.take_replicate, Nat.min_eq_left hlen]
    rw [htake, listSum_replicate]
    have hn0 : (n : ℚ) ≠ 0 := Nat.cast_ne_zero.mpr (by omega)
    field_simp
  rw [EMA, hseed]
  apply emaLoop_const
  · exact hi2
  · have : ((n : ℤ) - 1) ≤ (i : ℤ) := by
      have := hi1
      omega
    push_cast
    omega

/-- Witness for C7 at `P = 7`, `n = 3`, `len = 5`, `i = 4`. -/
theorem C7_ema_constant_series_witness :
    1 ≤ 3 ∧ 3 ≤ 5 ∧ 3 - 1 ≤ 4 ∧ 4 < 5 ∧
      (EMA (List.replicate 5 (7 : ℚ)) 3)[4]? = some (some 7) :=
  ⟨by decide, by decide, by decide, by decide,
    C7_ema_constant_series 7 3 5 4 (by decide) (by decide) (by decide) (by decide)⟩

end ClaimC7

section ClaimC6

open TechnicalIndicators

lemma RSI_getElem?_succ (closes : List ℚ) (p i : ℕ)
    (h : i < (rsiGains closes).length) :
    (RSI closes p)[i + 1]? =
      some (if (i : ℤ) < (p : ℤ) - 1 then none
        else if rsiAvgLoss closes p i = 0 then some 100
        else some (100 - 100 / (1 + rsiAvgGain closes p i / rsiAvgLoss closes p i))) := by
  simp [RSI, List.getElem?_map, List.getElem?_range, h]

lemma RSI_length (closes : List ℚ) (p : ℕ) :
    (RSI closes p).length = 1 + (rsiGains closes).length := by
  simp [RSI]
  omega

lemma mem_jsSlice {α : Type} {x : α} {l : List α} {a b : ℕ}
    (h : x ∈ jsSlice l a b) : x ∈ l :=
  List.mem_of_mem_drop (List.mem_of_mem_take h)

lemma rsiAvgGain_nonneg (closes : List ℚ) (p i : ℕ) :
    0 ≤ rsiAvgGain closes p i := by
  apply div_nonneg _ (by positivity)
  apply listSum_nonneg
  intro x hx
  have hx' : x ∈ rsiGains closes := mem_jsSlice hx
  simp only [rsiGains, List.mem_map] at hx'
  obtain ⟨c, _, rfl⟩ := hx'
  split <;> simp_all
  linarith

lemma rsiAvgLoss_nonneg (closes : List ℚ) (p i : ℕ) :
    0 ≤ rsiAvgLoss closes p i := by
  apply div_nonneg _ (by positivity)
  apply listSum_nonneg
  intro x hx
  have hx' : x ∈ rsiLosses closes := mem_jsSlice hx
  simp only [rsiLosses, List.mem_map] at hx'
  obtain ⟨c, _, rfl⟩ := hx'
  split
  · exact abs_nonneg c
  · simp

/-- **C6**: every non-absent entry of `RSI(closes, period)` lies in
`[0, 100]`, and the entry at the index whose trailing average loss is `0`
is exactly `100` (for every index past the warm-up). -/
theorem C6_rsi_bounds (closes : List ℚ) (period : ℕ) :
    (∀ (j : ℕ) (v : ℚ), (RSI closes period)[j]? = some (some v) →
      0 ≤ v ∧ v ≤ 100) ∧
    (∀ i : ℕ, i < (rsiGains closes).length → (period : ℤ) - 1 ≤ (i : ℤ) →
      rsiAvgLoss closes period i = 0 →
      (RSI closes period)[i + 1]? = some (some 100)) := by
  constructor
  · intro j v hj
    match j with
    | 0 =>
      simp [RSI] at hj
    | Nat.succ i =>
      by_cases hi : i < (rsiGains closes).length
      · rw [RSI_getElem?_succ closes period i hi] at hj
        split at hj
        · simp at hj
        · split at hj
          · have hv : v = 100 := by simpa using hj.symm
            constructor <;> simp [hv]
          · have hv : v = 100 - 100 / (1 + rsiAvgGain closes period i / rsiAvgLoss closes period i) := by
              simpa using hj.symm
            have hg := rsiAvgGain_nonneg closes period i
            have hl := rsiAvgLoss_nonneg closes period i
            rename_i hl0
            have hlpos : 0 < rsiAvgLoss closes period i := lt_of_le_of_ne hl (Ne.symm hl0)
            have hrs : 0 ≤ rsiAvgGain closes period i / rsiAvgLoss closes period i :=
              div_nonneg hg hl
            have hden : (1 : ℚ) ≤ 1 + rsiAvgGain closes period i / rsiAvgLoss closes period i := by
              linarith
            have hfrac_pos : 0 < (100 : ℚ) / (1 + rsiAvgGain closes period i / rsiAvgLoss closes period i) :=
              div_pos (by norm_num) (by linarith)
            have hfrac_le : (100 : ℚ) / (1 + rsiAvgGain closes period i / rsiAvgLoss closes period i) ≤ 100 :=
              div_le_self (by norm_num) hden
            constructor <;> [linarith; linarith]
      · exfalso
        have hlen : (RSI closes period).length ≤ i + 1 := by
          rw [RSI_length]
          omega
        rw [List.getElem?_eq_none hlen] at hj
        exact Option.noConfusion hj
  · intro i hi hpi hl0
    rw [RSI_getElem?_succ closes period i hi, if_neg (by omega), if_pos hl0]

/-- Witness for C6: strictly increasing closes give average loss `0` and
RSI exactly `100`, which the first part bounds inside `[0, 100]`. -/
theorem C6_rsi_bounds_witness :
    1 < (rsiGains [(1 : ℚ), 2, 3]).length ∧ (2 : ℤ) - 1 ≤ (1 : ℤ) ∧
      rsiAvgLoss [(1 : ℚ), 2, 3] 2 1 = 0 ∧
      (RSI [(1 : ℚ), 2, 3] 2)[1 + 1]? = some (some 100) ∧
      (0 ≤ (100 : ℚ) ∧ (100 : ℚ) ≤ 100) :=
  ⟨by decide, by decide, by decide,
    (C6_rsi_bounds [(1 : ℚ), 2, 3] 2).2 1 (by decide) (by decide) (by decide),
    (C6_rsi_bounds [(1 : ℚ), 2, 3] 2).1 2 100
      ((C6_rsi_bounds [(1 : ℚ), 2, 3] 2).2 1 (by decide) (by decide) (by decide))⟩

end ClaimC6

section ClaimC5

open TechnicalIndicators

lemma SMA_getElem?_none_iff (data : List ℚ) (p i : ℕ) (h : i < data.length) :
    ((SMA data p)[i]? = some none ↔ (i : ℤ) < (p : ℤ) - 1) := by
  rw [SMA_getElem? data p i h]
  split <;> simp_all

lemma EMA_getElem?_none_iff (data : List ℚ) (p i : ℕ) (h : i < data.length) :
    ((EMA data p)[i]? = some none ↔ (i : ℤ) < (p : ℤ) - 1) := by
  simpa using emaLoop_getElem?_none_iff (2 / ((p : ℚ) + 1)) p data i 0
    (listSum (jsSlice data 0 p) / p) h

lemma optSub_length (a b : List (Option ℚ)) :
    (optSub a b).length = min a.length b.length := by
  simp [optSub]

lemma alignSignal_length (a : List (Option ℚ)) :
    ∀ sig : List (Option ℚ), (alignSignal a sig).length = a.length := by
  induction a with
  | nil => intro sig; simp [alignSignal]
  | cons x rest ih =>
    intro sig
    cases x with
    | none => simp [alignSignal, ih]
    | some v =>
      cases sig with
      | nil => simp [alignSignal, ih]
      | cons s sr => simp [alignSignal, ih]

lemma MACD_macd_length (closes : List ℚ) (fp sp gp : ℕ) :
    (MACD closes fp sp gp).macd.length = closes.length := by
  simp [MACD, optSub_length, EMA_length]

lemma MACD_signal_length (closes : List ℚ) (fp sp gp : ℕ) :
    (MACD closes fp sp gp).signal.length = closes.length := by
  simp [MACD, alignSignal_length, optSub_length, EMA_length]

lemma MACD_histogram_length (closes : List ℚ) (fp sp gp : ℕ) :
    (MACD closes fp sp gp).histogram.length = closes.length := by
  simp [MACD, optSub_length, alignSignal_length, EMA_length]

lemma trueRanges_length (candles : List Candle) :
    (trueRanges candles).length = candles.length := by
  simp [trueRanges]

lemma rsiGains_length (closes : List ℚ) :
    (rsiGains closes).length = closes.length - 1 := by
  simp [rsiGains, rsiChanges]

/-- **C5 (amended)**: every index-aligned indicator series (SMA, EMA,
Bollinger Bands, MACD, ATR, VolumeMA, and RSI on nonempty input) has output
length equal to the input length, with the absent prefix of SMA/EMA/BB
being exactly the indices `< period − 1`; Stochastic-RSI's `%K` and `%D`
lines are the exception: `%K` has the length of the `null`-stripped raw
stochastic series (strictly shorter than the input whenever a warm-up
absence exists) and `%D` the length of the `null`-stripped `%K`. -/
theorem C5_amended_series_lengths (sqrtFn : ℚ → ℚ) (data closes : List ℚ)
    (candles : List Candle) (p fp sp gp rp stp kp dp : ℕ) (sd : ℚ) :
    (SMA data p).length = data.length ∧
    (∀ i, i < data.length → ((SMA data p)[i]? = some none ↔ (i : ℤ) < (p : ℤ) - 1)) ∧
    (EMA data p).length = data.length ∧
    (∀ i, i < data.length → ((EMA data p)[i]? = some none ↔ (i : ℤ) < (p : ℤ) - 1)) ∧
    (BollingerBands sqrtFn closes p sd).upper.length = closes.length ∧
    (BollingerBands sqrtFn closes p sd).middle.length = closes.length ∧
    (BollingerBands sqrtFn closes p sd).lower.length = closes.length ∧
    (∀ i, i < closes.length →
      (((BollingerBands sqrtFn closes p sd).upper[i]? = some none ↔
          (i : ℤ) < (p : ℤ) - 1) ∧
        ((BollingerBands sqrtFn closes p sd).lower[i]? = some none ↔
          (i : ℤ) < (p : ℤ) - 1))) ∧
    (MACD closes fp sp gp).macd.length = closes.length ∧
    (MACD closes fp sp gp).signal.length = closes.length ∧
    (MACD closes fp sp gp).histogram.length = closes.length ∧
    (ATR candles p).length = candles.length ∧
    (VolumeMA data p).length = data.length ∧
    (closes ≠ [] → (RSI closes rp).length = closes.length) ∧
    (StochRSI closes rp stp kp dp).k.length =
      ((StochRSI closes rp stp kp dp).raw.filterMap id).length ∧
    (StochRSI closes rp stp kp dp).d.length =
      ((StochRSI closes rp stp kp dp).k.filterMap id).length := by
  refine ⟨SMA_length data p, fun i hi => SMA_getElem?_none_iff data p i hi,
    EMA_length data p, fun i hi => EMA_getElem?_none_iff data p i hi,
    ?_, ?_, ?_, ?_, MACD_macd_length closes fp sp gp,
    MACD_signal_length closes fp sp gp, MACD_histogram_length closes fp sp gp,
    ?_, SMA_length data p, ?_, ?_, ?_⟩
  · simp [BollingerBands]
  · simp [BollingerBands, SMA_length]
  · simp [BollingerBands]
  · intro i hi
    constructor
    · show ((List.range closes.length).map (bbUpperEntry sqrtFn closes p sd))[i]? =
        some none ↔ (i : ℤ) < (p : ℤ) - 1
      rw [List.getElem?_map, List.getElem?_range hi]
      unfold bbUpperEntry
      simp only [Option.map_some']
      split <;> simp_all
    · show ((List.range closes.length).map (bbLowerEntry sqrtFn closes p sd))[i]? =
        some none ↔ (i : ℤ) < (p : ℤ) - 1
      rw [List.getElem?_map, List.getElem?_range hi]
      unfold bbLowerEntry
      simp only [Option.map_some']
      split <;> simp_all
  · simp [ATR, EMA_length, trueRanges_length]
  · intro hne
    rw [RSI_length, rsiGains_length]
    have : 1 ≤ closes.length := List.length_pos.mpr hne
    omega
  · simp [StochRSI, SMA_length]
  · simp [StochRSI, SMA_length]

/-- Counterexample to C5 as stated: on the 5-element input `[1, 2, 3, 4, 5]`
with periods `2/2/3/3`, Stochastic-RSI's `%K` line has length 2, not 5. -/
theorem C5_counterexample :
    ¬ ((StochRSI [(1 : ℚ), 2, 3, 4, 5] 2 2 3 3).k.length =
        ([(1 : ℚ), 2, 3, 4, 5] : List ℚ).length) := by
  decide

/-- Witness for the amended C5 at concrete inputs. -/
theorem C5_amended_series_lengths_witness :
    (SMA [(1 : ℚ), 2, 3] 2).length = 3 ∧
    ((SMA [(1 : ℚ), 2, 3] 2)[0]? = some none ↔ (0 : ℤ) < (2 : ℤ) - 1) ∧
    ((EMA [(1 : ℚ), 2, 3] 2)[2]? = some none ↔ (2 : ℤ) < (2 : ℤ) - 1) ∧
    (([(1 : ℚ), 2, 3] : List ℚ) ≠ [] → (RSI [(1 : ℚ), 2, 3] 14).length = 3) := by
  have h := C5_amended_series_lengths id [(1 : ℚ), 2, 3] [(1 : ℚ), 2, 3] [] 2 12 26 9 14 14 3 3 2
  exact ⟨h.1, h.2.1 0 (by decide), h.2.2.2.1 2 (by decide),
    fun hne => h.2.2.2.2.2.2.2.2.2.2.2.2.2.1 hne⟩

end ClaimC5

section ClaimC8

open TechnicalIndicators SignalEngine

lemma scanLatest_eq_none_iff (l : List (Option ℚ)) :
    scanLatest l = none ↔ ∀ x ∈ l, x = none := by
  induction l with
  | nil => simp [scanLatest]
  | cons x t ih =>
    cases x with
    | none => simp [scanLatest, ih]
    | some v => simp [scanLatest]

lemma getLatest_eq_none_iff (l : List (Option ℚ)) :
    getLatest l = none ↔ ∀ x ∈ l, x = none := by
  rw [getLatest, scanLatest_eq_none_iff]
  simp

lemma getLatest_isSome_of_mem {l : List (Option ℚ)} {v : ℚ} (h : some v ∈ l) :
    ∃ w, getLatest l = some w := by
  cases hg : getLatest l with
  | none =>
    rw [getLatest_eq_none_iff] at hg
    exact absurd (hg _ h) (by simp)
  | some w => exact ⟨w, rfl⟩

lemma optSub_nil (b : List (Option ℚ)) : optSub [] b = [] := rfl

lemma optSub_cons_nil (x : Option ℚ) (a : List (Option ℚ)) :
    optSub (x :: a) [] = [] := rfl

lemma optSub_cons_cons (x y : Option ℚ) (a b : List (Option ℚ)) :
    optSub (x :: a) (y :: b) =
      (match x, y with
        | some u, some w => some (u - w)
        | _, _ => none) :: optSub a b := rfl

lemma optSub_getElem?_some :
    ∀ (a b : List (Option ℚ)) (i : ℕ) (v : ℚ),
      (optSub a b)[i]? = some (some v) →
      (∃ x, a[i]? = some (some x)) ∧ ∃ y, b[i]? = some (some y) := by
  intro a
  induction a with
  | nil => intro b i v h; simp [optSub_nil] at h
  | cons x ta ih =>
    intro b i v h
    cases b with
    | nil => simp [optSub_cons_nil] at h
    | cons y tb =>
      cases i with
      | zero =>
        rw [optSub_cons_cons] at h
        simp only [List.getElem?_cons_zero, Option.some.injEq] at h
        cases x <;> cases y <;> simp_all
      | succ j =>
        rw [optSub_cons_cons] at h
        simp only [List.getElem?_cons_succ] at h
        obtain ⟨⟨xx, hx⟩, ⟨yy, hy⟩⟩ := ih tb j v h
        exact ⟨⟨xx, by simpa using hx⟩, ⟨yy, by simpa using hy⟩⟩

lemma scanLatest_eq_some_mem :
    ∀ {l : List (Option ℚ)} {v : ℚ}, scanLatest l = some v → some v ∈ l := by
  intro l
  induction l with
  | nil => intro v h; simp [scanLatest] at h
  | cons x t ih =>
    intro v h
    cases x with
    | none =>
      have := ih (by simpa [scanLatest] using h)
      simp [this]
    | some w =>
      have hw : w = v := by simpa [scanLatest] using h
      simp [hw]

lemma getLatest_eq_some_mem {l : List (Option ℚ)} {v : ℚ}
    (h : getLatest l = some v) : some v ∈ l := by
  rw [← List.mem_reverse]
  exact scanLatest_eq_some_mem h

/-- **C8**: on a MACD snapshot extracted by `getLatestIndicators` from a
computed `MACD` result, a histogram sign flip from `≤ 0` to `> 0` between
the two latest computed points makes `analyzeMACD` assign score `+3`, and
the mirrored flip score `−3`. -/
theorem C8_macd_cross_scores (ind : Indicators) (closes : List ℚ)
    (fp sp gp : ℕ) (hind : ind.macd = MACD closes fp sp gp) :
    (∀ h p, (getLatestIndicators ind).macd.histogram = some h → 0 < h →
      (getLatestIndicators ind).macd.prevHistogram = some p → p ≤ 0 →
      (analyzeMACD (getLatestIndicators ind).macd).score = 3) ∧
    (∀ h p, (getLatestIndicators ind).macd.histogram = some h → h < 0 →
      (getLatestIndicators ind).macd.prevHistogram = some p → 0 ≤ p →
      (analyzeMACD (getLatestIndicators ind).macd).score = -3) := by
  have hist_rel : ind.macd.histogram = optSub ind.macd.macd ind.macd.signal := by
    rw [hind]
    rfl
  have hsnap : (getLatestIndicators ind).macd =
      ⟨getLatest ind.macd.macd, getLatest ind.macd.signal,
        getLatest ind.macd.histogram, getPrevious ind.macd.histogram⟩ := rfl
  have main : ∀ h : ℚ, getLatest ind.macd.histogram = some h →
      (∃ m, getLatest ind.macd.macd = some m) ∧
      ∃ s, getLatest ind.macd.signal = some s := by
    intro h hh
    have hmem := getLatest_eq_some_mem hh
    obtain ⟨i, hi⟩ := List.getElem?_of_mem hmem
    rw [hist_rel] at hi
    obtain ⟨⟨x, hx⟩, ⟨y, hy⟩⟩ := optSub_getElem?_some _ _ i h hi
    exact ⟨getLatest_isSome_of_mem (List.getElem?_mem hx),
      getLatest_isSome_of_mem (List.getElem?_mem hy)⟩
  constructor
  · intro h p hh hpos hp hple
    rw [hsnap] at hh hp ⊢
    simp only at hh hp
    obtain ⟨⟨m, hm⟩, ⟨s, hs⟩⟩ := main h hh
    rw [hm, hs, hh, hp]
    rw [analyzeMACD]
    simp only [jsNum]
    rw [if_pos ⟨hpos, by simp, hple⟩]
  · intro h p hh hneg hp hpge
    rw [hsnap] at hh hp ⊢
    simp only at hh hp
    obtain ⟨⟨m, hm⟩, ⟨s, hs⟩⟩ := main h hh
    rw [hm, hs, hh, hp]
    rw [analyzeMACD]
    simp only [jsNum]
    rw [if_neg (by push_neg; intro hc; linarith), if_pos ⟨hneg, by simp, hpge⟩]

/-- Witness for C8: with fast/slow/signal periods `1/2/2`, the closes
`[10, 12, 11, 14]` end on a histogram flip `−1/2 → 1/6` (score `+3`) and
`[10, 8, 9, 6]` on the mirrored flip `1/2 → −1/6` (score `−3`). -/
theorem C8_macd_cross_scores_witness :
    ((getLatestIndicators
        ⟨[], MACD [(10 : ℚ), 12, 11, 14] 1 2 2, [], [], [], [],
          ⟨[], [], []⟩, [], none, []⟩).macd.histogram = some (1/6) ∧
      (analyzeMACD (getLatestIndicators
        ⟨[], MACD [(10 : ℚ), 12, 11, 14] 1 2 2, [], [], [], [],
          ⟨[], [], []⟩, [], none, []⟩).macd).score = 3) ∧
    ((getLatestIndicators
        ⟨[], MACD [(10 : ℚ), 8, 9, 6] 1 2 2, [], [], [], [],
          ⟨[], [], []⟩, [], none, []⟩).macd.histogram = some (-(1/6)) ∧
      (analyzeMACD (getLatestIndicators
        ⟨[], MACD [(10 : ℚ), 8, 9, 6] 1 2 2, [], [], [], [],
          ⟨[], [], []⟩, [], none, []⟩).macd).score = -3) :=
  ⟨⟨by decide,
    (C8_macd_cross_scores
      ⟨[], MACD [(10 : ℚ), 12, 11, 14] 1 2 2, [], [], [], [],
        ⟨[], [], []⟩, [], none, []⟩ [(10 : ℚ), 12, 11, 14] 1 2 2 rfl).1
      (1/6) (-(1/2)) (by decide) (by decide) (by decide) (by decide)⟩,
   ⟨by decide,
    (C8_macd_cross_scores
      ⟨[], MACD [(10 : ℚ), 8, 9, 6] 1 2 2, [], [], [], [],
        ⟨[], [], []⟩, [], none, []⟩ [(10 : ℚ), 8, 9, 6] 1 2 2 rfl).2
      (-(1/6)) (1/2) (by decide) (by decide) (by decide) (by decide)⟩⟩

end ClaimC8

section EngineLemmas

open SignalEngine

/-- The `core` local of `generateSignal` before the risk/leverage fields. -/
def coreOf (cfg : Config) (analysis : Analysis) (price : ℚ)
    (candles : List Candle) : SignalCore :=
  signalCore cfg analysis price (findSupportResistance candles price)
    (nearSupportOf price (findSupportResistance candles price))
    (nearResistanceOf price (findSupportResistance candles price))

lemma generateSignal_action (cfg : Config) (a : Analysis) (price : ℚ)
    (candles : List Candle) (ind : Indicators) :
    (generateSignal cfg a price candles ind).action = (coreOf cfg a price candles).action :=
  rfl

lemma generateSignal_stopLoss (cfg : Config) (a : Analysis) (price : ℚ)
    (candles : List Candle) (ind : Indicators) :
    (generateSignal cfg a price candles ind).stopLoss =
      (coreOf cfg a price candles).stopLoss :=
  rfl

lemma generateSignal_takeProfit (cfg : Config) (a : Analysis) (price : ℚ)
    (candles : List Candle) (ind : Indicators) :
    (generateSignal cfg a price candles ind).takeProfit =
      (coreOf cfg a price candles).takeProfit :=
  rfl

lemma generateSignal_entry (cfg : Config) (a : Analysis) (price : ℚ)
    (candles : List Candle) (ind : Indicators) :
    (generateSignal cfg a price candles ind).entry = price :=
  rfl

lemma generateSignal_leverage (cfg : Config) (a : Analysis) (price : ℚ)
    (candles : List Candle) (ind : Indicators) :
    (generateSignal cfg a price candles ind).leverage =
      (leverageOf a (coreOf cfg a price candles).action
        (riskPercentOf price (coreOf cfg a price candles).stopLoss)
        (coreOf cfg a price candles).reason).1 :=
  rfl

lemma generateSignal_reasons (cfg : Config) (a : Analysis) (price : ℚ)
    (candles : List Candle) (ind : Indicators) :
    (generateSignal cfg a price candles ind).reasons =
      (leverageOf a (coreOf cfg a price candles).action
        (riskPercentOf price (coreOf cfg a price candles).stopLoss)
        (coreOf cfg a price candles).reason).2.2 :=
  rfl

lemma waitBranch_action (a : Analysis) (rej : List Reason) :
    (waitBranch a rej).action = .WAIT :=
  rfl

lemma waitBranch_stopLoss (a : Analysis) (rej : List Reason) :
    (waitBranch a rej).stopLoss = none :=
  rfl

lemma waitBranch_takeProfit (a : Analysis) (rej : List Reason) :
    (waitBranch a rej).takeProfit = none :=
  rfl

lemma shortBranch_action_ne_long (cfg : Config) (a : Analysis) (price : ℚ)
    (sr : SupportResistanceLevels) (b : Bool) :
    (shortBranch cfg a price sr b).action ≠ .LONG := by
  simp only [shortBranch]
  split_ifs <;> simp

lemma longBranch_action_ne_short (cfg : Config) (a : Analysis) (price : ℚ)
    (sr : SupportResistanceLevels) (b : Bool) :
    (longBranch cfg a price sr b).action ≠ .SHORT := by
  simp only [longBranch]
  split_ifs <;> simp

lemma signalCore_action_long {cfg : Config} {a : Analysis} {price : ℚ}
    {sr : SupportResistanceLevels} {ns nr : Bool}
    (h : (signalCore cfg a price sr ns nr).action = .LONG) :
    signalCore cfg a price sr ns nr = longBranch cfg a price sr ns := by
  unfold signalCore at h ⊢
  split_ifs at h ⊢
  · rfl
  · exact absurd h (shortBranch_action_ne_long cfg a price sr nr)
  · rw [waitBranch_action] at h
    exact absurd h (by simp)

lemma signalCore_action_short {cfg : Config} {a : Analysis} {price : ℚ}
    {sr : SupportResistanceLevels} {ns nr : Bool}
    (h : (signalCore cfg a price sr ns nr).action = .SHORT) :
    signalCore cfg a price sr ns nr = shortBranch cfg a price sr nr := by
  unfold signalCore at h ⊢
  split_ifs at h ⊢
  · exact absurd h (longBranch_action_ne_short cfg a price sr ns)
  · rfl
  · rw [waitBranch_action] at h
    exact absurd h (by simp)

lemma signalCore_rejections_ne {cfg : Config} {a : Analysis} (price : ℚ)
    (sr : SupportResistanceLevels) (ns nr : Bool)
    (h : rejectionReasonsOf cfg a ≠ []) :
    signalCore cfg a price sr ns nr = waitBranch a (rejectionReasonsOf cfg a) := by
  unfold signalCore
  rw [if_neg fun hc => h hc.2.1, if_neg fun hc => h hc.2.1]

lemma longBranch_long_inv {cfg : Config} {a : Analysis} {price : ℚ}
    {sr : SupportResistanceLevels} {b : Bool}
    (h : (longBranch cfg a price sr b).action = .LONG) :
    rejectionReasonsOf cfg a = [] ∧ jsTruthy sr.nearestSupport = true ∧
    (longBranch cfg a price sr b).stopLoss =
      some (longStopLoss price sr.nearestSupport) ∧
    (longBranch cfg a price sr b).takeProfit =
      some (longTakeProfit price (longStopLoss price sr.nearestSupport)
        sr.nearestResistance) := by
  by_cases hc : (rejectionReasonsOf cfg a ++
      (if ¬ jsTruthy sr.nearestSupport then [Reason.noSupportReject] else [])) = []
  · have h1 : rejectionReasonsOf cfg a = [] := (List.append_eq_nil.mp hc).1
    have h2 : jsTruthy sr.nearestSupport = true := by
      by_cases ht : jsTruthy sr.nearestSupport = true
      · exact ht
      · exfalso
        have := (List.append_eq_nil.mp hc).2
        rw [if_pos (by simp [ht])] at this
        exact List.noConfusion this
    refine ⟨h1, h2, ?_, ?_⟩ <;>
      · simp only [longBranch]
        rw [if_pos hc]
  · exfalso
    simp only [longBranch] at h
    rw [if_neg hc] at h
    exact absurd h (by simp)

lemma shortBranch_short_inv {cfg : Config} {a : Analysis} {price : ℚ}
    {sr : SupportResistanceLevels} {b : Bool}
    (h : (shortBranch cfg a price sr b).action = .SHORT) :
    rejectionReasonsOf cfg a = [] ∧ jsTruthy sr.nearestResistance = true ∧
    (shortBranch cfg a price sr b).stopLoss =
      some (shortStopLoss price sr.nearestResistance) ∧
    (shortBranch cfg a price sr b).takeProfit =
      some (shortTakeProfit price (shortStopLoss price sr.nearestResistance)
        sr.nearestSupport) := by
  by_cases hc : (rejectionReasonsOf cfg a ++
      (if ¬ jsTruthy sr.nearestResistance then [Reason.noResistanceReject] else [])) = []
  · have h1 : rejectionReasonsOf cfg a = [] := (List.append_eq_nil.mp hc).1
    have h2 : jsTruthy sr.nearestResistance = true := by
      by_cases ht : jsTruthy sr.nearestResistance = true
      · exact ht
      · exfalso
        have := (List.append_eq_nil.mp hc).2
        rw [if_pos (by simp [ht])] at this
        exact List.noConfusion this
    refine ⟨h1, h2, ?_, ?_⟩ <;>
      · simp only [shortBranch]
        rw [if_pos hc]
  · exfalso
    simp only [shortBranch] at h
    rw [if_neg hc] at h
    exact absurd h (by simp)

lemma longBranch_action_long {cfg : Config} {a : Analysis} (price : ℚ)
    {sr : SupportResistanceLevels} (b : Bool)
    (hrej : rejectionReasonsOf cfg a = [])
    (hs : jsTruthy sr.nearestSupport = true) :
    (longBranch cfg a price sr b).action = .LONG := by
  simp only [longBranch]
  rw [if_pos (by rw [hrej]; simp [hs])]

lemma shortBranch_action_short {cfg : Config} {a : Analysis} (price : ℚ)
    {sr : SupportResistanceLevels} (b : Bool)
    (hrej : rejectionReasonsOf cfg a = [])
    (hr : jsTruthy sr.nearestResistance = true) :
    (shortBranch cfg a price sr b).action = .SHORT := by
  simp only [shortBranch]
  rw [if_pos (by rw [hrej]; simp [hr])]

lemma longStopLoss_spec {price : ℚ} (hp : 0 < price) (ns : Option ℚ) :
    price - longStopLoss price ns ≥ price * (15/1000) ∧
    longStopLoss price ns < price ∧
    (jsNum ns ≠ 0 → longStopLoss price ns ≠ 0) := by
  simp only [longStopLoss]
  have h15 : 0 < price * (15/1000) := by positivity
  split_ifs with h
  · refine ⟨by linarith, by linarith, fun _ => ?_⟩
    have hrw : price - price * (15/1000) = price * (985/1000) := by ring
    rw [hrw]
    exact mul_ne_zero (ne_of_gt hp) (by norm_num)
  · refine ⟨by linarith, by linarith, fun hns => ?_⟩
    exact mul_ne_zero hns (by norm_num)

lemma longTakeProfit_gt {price sl : ℚ} (hp : 0 < price)
    (hsl : price - sl ≥ price * (15/1000)) (nr : Option ℚ) :
    price < longTakeProfit price sl nr := by
  simp only [longTakeProfit]
  have h15 : 0 < price * (15/1000) := by positivity
  have hd : 0 < price - sl := by linarith
  split_ifs <;> linarith

lemma shortStopLoss_spec {price : ℚ} (hp : 0 < price) (nr : Option ℚ) :
    shortStopLoss price nr - price ≥ price * (15/1000) ∧
    price < shortStopLoss price nr ∧
    (jsNum nr ≠ 0 → shortStopLoss price nr ≠ 0) := by
  simp only [shortStopLoss]
  have h15 : 0 < price * (15/1000) := by positivity
  split_ifs with h
  · refine ⟨by linarith, by linarith, fun _ => ?_⟩
    have hrw : price + price * (15/1000) = price * (1015/1000) := by ring
    rw [hrw]
    exact mul_ne_zero (ne_of_gt hp) (by norm_num)
  · refine ⟨by linarith, by linarith, fun hnr => ?_⟩
    exact mul_ne_zero hnr (by norm_num)

lemma shortTakeProfit_lt {price sl : ℚ} (hp : 0 < price)
    (hsl : sl - price ≥ price * (15/1000)) (ns : Option ℚ) :
    shortTakeProfit price sl ns < price := by
  simp only [shortTakeProfit]
  have h15 : 0 < price * (15/1000) := by positivity
  have hd : 0 < sl - price := by linarith
  split_ifs <;> linarith

lemma riskPercentOf_truthy {price sl : ℚ} (hp : price ≠ 0) (hsl0 : sl ≠ 0)
    (hne : price - sl ≠ 0) :
    jsTruthy (riskPercentOf price (some sl)) = true := by
  unfold riskPercentOf
  rw [if_pos (by simp [jsTruthy, hsl0])]
  simp [jsTruthy, jsNum, abs_eq_zero, mul_eq_zero, div_eq_zero_iff, hp, hne]

lemma leverageOf_bounds {a : Analysis} {act : Action} {rp : Option ℚ}
    (rs : List Reason) (h1 : act ≠ Action.WAIT) (h2 : jsTruthy rp = true) :
    5 ≤ (leverageOf a act rp rs).1 ∧ (leverageOf a act rp rs).1 ≤ 15 := by
  unfold leverageOf
  rw [if_pos ⟨h1, h2⟩]
  exact ⟨le_min (le_max_right _ _) (by norm_num), min_le_right _ _⟩

lemma leverageOf_wait (a : Analysis) (rp : Option ℚ) (rs : List Reason) :
    (leverageOf a .WAIT rp rs).2.2 = rs := by
  unfold leverageOf
  rw [if_neg (by simp)]

lemma nearestBelow_aux (price : ℚ) :
    ∀ (levels : List ℚ) (acc : Option ℚ),
      (∀ b, acc = some b → b < price) →
      ∀ s, levels.foldl
        (fun acc s =>
          if s < price then
            match acc with
            | none => some s
            | some b => if price - s < price - b then some s else acc
          else acc) acc = some s → s < price := by
  intro levels
  induction levels with
  | nil => intro acc hacc s hs; exact hacc s hs
  | cons x t ih =>
    intro acc hacc s hs
    refine ih _ ?_ s hs
    intro b hb
    simp only [] at hb
    by_cases hx : x < price
    · rw [if_pos hx] at hb
      cases acc with
      | none =>
        have hxb : x = b := Option.some.inj hb
        subst hxb
        exact hx
      | some b0 =>
        by_cases hd : price - x < price - b0
        · simp [hd] at hb
          subst hb
          exact hx
        · simp [hd] at hb
          subst hb
          exact hacc b0 rfl
    · rw [if_neg hx] at hb
      exact hacc b hb

lemma nearestBelow_some_lt {price s : ℚ} {levels : List ℚ}
    (h : nearestBelow price levels = some s) : s < price :=
  nearestBelow_aux price levels none (by simp) s h

lemma nearestAbove_aux (price : ℚ) :
    ∀ (levels : List ℚ) (acc : Option ℚ),
      (∀ b, acc = some b → price < b) →
      ∀ r, levels.foldl
        (fun acc r =>
          if r > price then
            match acc with
            | none => some r
            | some b => if r - price < b - price then some r else acc
          else acc) acc = some r → price < r := by
  intro levels
  induction levels with
  | nil => intro acc hacc r hr; exact hacc r hr
  | cons x t ih =>
    intro acc hacc r hr
    refine ih _ ?_ r hr
    intro b hb
    simp only [] at hb
    by_cases hx : x > price
    · rw [if_pos hx] at hb
      cases acc with
      | none =>
        have hxb : x = b := Option.some.inj hb
        subst hxb
        exact hx
      | some b0 =>
        by_cases hd : x - price < b0 - price
        · simp [hd] at hb
          subst hb
          exact hx
        · simp [hd] at hb
          subst hb
          exact hacc b0 rfl
    · rw [if_neg hx] at hb
      exact hacc b hb

lemma nearestAbove_some_gt {price r : ℚ} {levels : List ℚ}
    (h : nearestAbove price levels = some r) : price < r :=
  nearestAbove_aux price levels none (by simp) r h

lemma resolveNearestSupport_spec {price : ℚ} (hp : 0 < price)
    (supports : List ℚ) :
    ∃ s, resolveNearestSupport price supports = some s ∧ s < price ∧ s ≠ 0 := by
  unfold resolveNearestSupport
  by_cases h : jsTruthy (nearestBelow price supports) = true
  · rw [if_pos h]
    obtain ⟨v, hv, hv0⟩ := jsTruthy_eq_true h
    exact ⟨v, hv, nearestBelow_some_lt hv, hv0⟩
  · rw [if_neg h]
    refine ⟨price * (97/100), rfl, by linarith, ?_⟩
    exact mul_ne_zero (ne_of_gt hp) (by norm_num)

lemma resolveNearestResistance_spec {price : ℚ} (hp : 0 < price)
    (resistances : List ℚ) :
    ∃ r, resolveNearestResistance price resistances = some r ∧ price < r ∧ r ≠ 0 := by
  unfold resolveNearestResistance
  by_cases h : jsTruthy (nearestAbove price resistances) = true
  · rw [if_pos h]
    obtain ⟨v, hv, hv0⟩ := jsTruthy_eq_true h
    exact ⟨v, hv, nearestAbove_some_gt hv, hv0⟩
  · rw [if_neg h]
    refine ⟨price * (103/100), rfl, by linarith, ?_⟩
    exact mul_ne_zero (ne_of_gt hp) (by norm_num)

lemma findSupportResistance_nearestSupport {candles : List Candle} {price : ℚ}
    (h50 : 50 ≤ candles.length) (hp : 0 < price) :
    ∃ s, (findSupportResistance candles price).nearestSupport = some s ∧
      s < price ∧ s ≠ 0 := by
  unfold findSupportResistance
  rw [if_neg (by omega)]
  exact resolveNearestSupport_spec hp _

lemma findSupportResistance_nearestResistance {candles : List Candle} {price : ℚ}
    (h50 : 50 ≤ candles.length) (hp : 0 < price) :
    ∃ r, (findSupportResistance candles price).nearestResistance = some r ∧
      price < r ∧ r ≠ 0 := by
  unfold findSupportResistance
  rw [if_neg (by omega)]
  exact resolveNearestResistance_spec hp _

end EngineLemmas

section ClaimC4

open SignalEngine

/-- **C4**: whenever the aggregate analysis says the market is sideways,
`generateSignal` emits a WAIT signal with absent stop-loss and take-profit,
and its reasons contain the sideways-market rejection reason. -/
theorem C4_sideways_forces_wait (cfg : Config) (a : Analysis) (price : ℚ)
    (candles : List Candle) (ind : Indicators) (h : a.isSideway = true) :
    (generateSignal cfg a price candles ind).action = .WAIT ∧
    (generateSignal cfg a price candles ind).stopLoss = none ∧
    (generateSignal cfg a price candles ind).takeProfit = none ∧
    Reason.sidewayReject cfg.sidewaysADXThreshold ∈
      (generateSignal cfg a price candles ind).reasons := by
  have hne : rejectionReasonsOf cfg a ≠ [] := by
    unfold rejectionReasonsOf
    rw [h]
    simp
  have hmem : Reason.sidewayReject cfg.sidewaysADXThreshold ∈
      rejectionReasonsOf cfg a := by
    unfold rejectionReasonsOf
    rw [h]
    simp
  have hcore : coreOf cfg a price candles = waitBranch a (rejectionReasonsOf cfg a) :=
    signalCore_rejections_ne price _ _ _ hne
  refine ⟨?_, ?_, ?_, ?_⟩
  · rw [generateSignal_action, hcore, waitBranch_action]
  · rw [generateSignal_stopLoss, hcore, waitBranch_stopLoss]
  · rw [generateSignal_takeProfit, hcore, waitBranch_takeProfit]
  · rw [generateSignal_reasons, hcore, waitBranch_action, waitBranch_stopLoss,
      leverageOf_wait]
    simp only [waitBranch]
    rw [if_pos hne]
    simp only [List.mem_append]
    tauto

/-- Witness for C4 on a concrete sideways analysis. -/
theorem C4_sideways_forces_wait_witness :
    (⟨⟨.NA, 0, none⟩, ⟨.NA, 0, none, none, none⟩, ⟨.NA, 0, none, none, none⟩,
        ⟨.NA, 0, none, none, none, none, none⟩, ⟨.NA, 0⟩, ⟨.NA, 0, none⟩,
        5, 1, .MODERATE, 3, 0, 3, true, false⟩ : Analysis).isSideway = true ∧
    ((generateSignal defaultConfig
        ⟨⟨.NA, 0, none⟩, ⟨.NA, 0, none, none, none⟩, ⟨.NA, 0, none, none, none⟩,
          ⟨.NA, 0, none, none, none, none, none⟩, ⟨.NA, 0⟩, ⟨.NA, 0, none⟩,
          5, 1, .MODERATE, 3, 0, 3, true, false⟩ 100 []
        ⟨[], ⟨[], [], []⟩, [], [], [], [], ⟨[], [], []⟩, [], none, []⟩).action = .WAIT ∧
      (generateSignal defaultConfig
        ⟨⟨.NA, 0, none⟩, ⟨.NA, 0, none, none, none⟩, ⟨.NA, 0, none, none, none⟩,
          ⟨.NA, 0, none, none, none, none, none⟩, ⟨.NA, 0⟩, ⟨.NA, 0, none⟩,
          5, 1, .MODERATE, 3, 0, 3, true, false⟩ 100 []
        ⟨[], ⟨[], [], []⟩, [], [], [], [], ⟨[], [], []⟩, [], none, []⟩).stopLoss = none ∧
      (generateSignal defaultConfig
        ⟨⟨.NA, 0, none⟩, ⟨.NA, 0, none, none, none⟩, ⟨.NA, 0, none, none, none⟩,
          ⟨.NA, 0, none, none, none, none, none⟩, ⟨.NA, 0⟩, ⟨.NA, 0, none⟩,
          5, 1, .MODERATE, 3, 0, 3, true, false⟩ 100 []
        ⟨[], ⟨[], [], []⟩, [], [], [], [], ⟨[], [], []⟩, [], none, []⟩).takeProfit = none ∧
      Reason.sidewayReject defaultConfig.sidewaysADXThreshold ∈
        (generateSignal defaultConfig
          ⟨⟨.NA, 0, none⟩, ⟨.NA, 0, none, none, none⟩, ⟨.NA, 0, none, none, none⟩,
            ⟨.NA, 0, none, none, none, none, none⟩, ⟨.NA, 0⟩, ⟨.NA, 0, none⟩,
            5, 1, .MODERATE, 3, 0, 3, true, false⟩ 100 []
          ⟨[], ⟨[], [], []⟩, [], [], [], [], ⟨[], [], []⟩, [], none, []⟩).reasons) :=
  ⟨by decide,
    C4_sideways_forces_wait defaultConfig
      ⟨⟨.NA, 0, none⟩, ⟨.NA, 0, none, none, none⟩, ⟨.NA, 0, none, none, none⟩,
        ⟨.NA, 0, none, none, none, none, none⟩, ⟨.NA, 0⟩, ⟨.NA, 0, none⟩,
        5, 1, .MODERATE, 3, 0, 3, true, false⟩ 100 []
      ⟨[], ⟨[], [], []⟩, [], [], [], [], ⟨[], [], []⟩, [], none, []⟩ (by decide)⟩

end ClaimC4

section ClaimC10

open SignalEngine

/-- **C10** (implicit claim): for ≥ 50 candles and a strictly positive
current price, `findSupportResistance` always returns a present nearest
support strictly below the price and a present nearest resistance strictly
above it, and consequently the support/resistance-availability rejection of
`generateSignal` never fires: whenever the LONG (resp. SHORT) entry
condition of the decision chain holds, the emitted action really is LONG
(resp. SHORT). -/
theorem C10_sr_levels_never_absent (cfg : Config) (a : Analysis) (price : ℚ)
    (candles : List Candle) (ind : Indicators)
    (h50 : 50 ≤ candles.length) (hp : 0 < price) :
    (∃ s, (findSupportResistance candles price).nearestSupport = some s ∧
      s < price) ∧
    (∃ r, (findSupportResistance candles price).nearestResistance = some r ∧
      price < r) ∧
    (a.totalScore ≥ cfg.minScoreForSignal ∧ rejectionReasonsOf cfg a = [] ∧
        (a.bullishConfluence : ℚ) ≥ cfg.minConfluence →
      (generateSignal cfg a price candles ind).action = .LONG) ∧
    (¬ (a.totalScore ≥ cfg.minScoreForSignal ∧ rejectionReasonsOf cfg a = [] ∧
        (a.bullishConfluence : ℚ) ≥ cfg.minConfluence) →
      a.totalScore ≤ -cfg.minScoreForSignal ∧ rejectionReasonsOf cfg a = [] ∧
        (a.bearishConfluence : ℚ) ≥ cfg.minConfluence →
      (generateSignal cfg a price candles ind).action = .SHORT) := by
  obtain ⟨s, hsEq, hsLt, hs0⟩ := findSupportResistance_nearestSupport h50 hp
  obtain ⟨r, hrEq, hrGt, hr0⟩ := findSupportResistance_nearestResistance h50 hp
  have hsTruthy :
      jsTruthy (findSupportResistance candles price).nearestSupport = true := by
    rw [hsEq]
    simp [jsTruthy, hs0]
  have hrTruthy :
      jsTruthy (findSupportResistance candles price).nearestResistance = true := by
    rw [hrEq]
    simp [jsTruthy, hr0]
  refine ⟨⟨s, hsEq, hsLt⟩, ⟨r, hrEq, hrGt⟩, ?_, ?_⟩
  · intro hcond
    rw [generateSignal_action]
    unfold coreOf signalCore
    rw [if_pos hcond]
    exact longBranch_action_long price _ hcond.2.1 hsTruthy
  · intro hnot hcond
    rw [generateSignal_action]
    unfold coreOf signalCore
    rw [if_neg hnot, if_pos hcond]
    exact shortBranch_action_short price _ hcond.2.1 hrTruthy

set_option maxRecDepth 100000 in
/-- Witness for C10: 50 flat positive candles and an analysis meeting the
LONG gates yield action LONG. -/
theorem C10_sr_levels_never_absent_witness :
    50 ≤ (List.replicate 50 (⟨100, 101, 99, 100, 1, "X"⟩ : Candle)).length ∧
    (0 : ℚ) < 100 ∧
    (generateSignal defaultConfig
      ⟨⟨.NA, 0, none⟩, ⟨.NA, 0, none, none, none⟩, ⟨.NA, 0, none, none, none⟩,
        ⟨.NA, 0, none, none, none, none, none⟩, ⟨.NA, 0⟩, ⟨.NA, 0, none⟩,
        5, 1, .MODERATE, 3, 0, 3, false, true⟩ 100
      (List.replicate 50 (⟨100, 101, 99, 100, 1, "X"⟩ : Candle))
      ⟨[], ⟨[], [], []⟩, [], [], [], [], ⟨[], [], []⟩, [], none, []⟩).action = .LONG :=
  ⟨by decide, by decide,
    (C10_sr_levels_never_absent defaultConfig
      ⟨⟨.NA, 0, none⟩, ⟨.NA, 0, none, none, none⟩, ⟨.NA, 0, none, none, none⟩,
        ⟨.NA, 0, none, none, none, none, none⟩, ⟨.NA, 0⟩, ⟨.NA, 0, none⟩,
        5, 1, .MODERATE, 3, 0, 3, false, true⟩ 100
      (List.replicate 50 (⟨100, 101, 99, 100, 1, "X"⟩ : Candle))
      ⟨[], ⟨[], [], []⟩, [], [], [], [], ⟨[], [], []⟩, [], none, []⟩
      (by decide) (by decide)).2.2.1 (by decide)⟩

end ClaimC10

section ClaimC1

open SignalEngine

/-- **C1**: for inputs of at least 50 candles with a strictly positive
current price (the last close, which `analyze` passes as `currentPrice`),
every emitted LONG signal satisfies `stopLoss < entry < takeProfit` and
`entry − stopLoss ≥ 1.5% · entry`, and every emitted SHORT signal satisfies
`takeProfit < entry < stopLoss` and `stopLoss − entry ≥ 1.5% · entry`. -/
theorem C1_sl_tp_invariants (cfg : Config) (a : Analysis) (price : ℚ)
    (candles : List Candle) (ind : Indicators)
    (_h50 : 50 ≤ candles.length) (hp : 0 < price) :
    (generateSignal cfg a price candles ind).entry = price ∧
    ((generateSignal cfg a price candles ind).action = .LONG →
      ∃ sl tp, (generateSignal cfg a price candles ind).stopLoss = some sl ∧
        (generateSignal cfg a price candles ind).takeProfit = some tp ∧
        sl < price ∧ price < tp ∧ price - sl ≥ price * (15/1000)) ∧
    ((generateSignal cfg a price candles ind).action = .SHORT →
      ∃ sl tp, (generateSignal cfg a price candles ind).stopLoss = some sl ∧
        (generateSignal cfg a price candles ind).takeProfit = some tp ∧
        tp < price ∧ price < sl ∧ sl - price ≥ price * (15/1000)) := by
  refine ⟨generateSignal_entry cfg a price candles ind, ?_, ?_⟩
  · intro hL
    rw [generateSignal_action] at hL
    unfold coreOf at hL
    have hcoreEq := signalCore_action_long hL
    rw [hcoreEq] at hL
    obtain ⟨hrej, hsTruthy, hSL, hTP⟩ := longBranch_long_inv hL
    obtain ⟨hge, hlt, -⟩ :=
      longStopLoss_spec hp (findSupportResistance candles price).nearestSupport
    refine ⟨longStopLoss price (findSupportResistance candles price).nearestSupport,
      longTakeProfit price
        (longStopLoss price (findSupportResistance candles price).nearestSupport)
        (findSupportResistance candles price).nearestResistance,
      ?_, ?_, hlt, longTakeProfit_gt hp hge _, hge⟩
    · rw [generateSignal_stopLoss]
      unfold coreOf
      rw [hcoreEq, hSL]
    · rw [generateSignal_takeProfit]
      unfold coreOf
      rw [hcoreEq, hTP]
  · intro hS
    rw [generateSignal_action] at hS
    unfold coreOf at hS
    have hcoreEq := signalCore_action_short hS
    rw [hcoreEq] at hS
    obtain ⟨hrej, hrTruthy, hSL, hTP⟩ := shortBranch_short_inv hS
    obtain ⟨hge, hgt, -⟩ :=
      shortStopLoss_spec hp (findSupportResistance candles price).nearestResistance
    refine ⟨shortStopLoss price (findSupportResistance candles price).nearestResistance,
      shortTakeProfit price
        (shortStopLoss price (findSupportResistance candles price).nearestResistance)
        (findSupportResistance candles price).nearestSupport,
      ?_, ?_, shortTakeProfit_lt hp hge _, hgt, hge⟩
    · rw [generateSignal_stopLoss]
      unfold coreOf
      rw [hcoreEq, hSL]
    · rw [generateSignal_takeProfit]
      unfold coreOf
      rw [hcoreEq, hTP]

set_option maxRecDepth 100000 in
/-- Witness for C1: the flat 50-candle LONG scenario, where the emitted
signal has `stopLoss = 98.5 < 100 < 100.798 = takeProfit`. -/
theorem C1_sl_tp_invariants_witness :
    50 ≤ (List.replicate 50 (⟨100, 101, 99, 100, 1, "Y"⟩ : Candle)).length ∧
    (0 : ℚ) < 100 ∧
    (generateSignal defaultConfig
      ⟨⟨.NA, 0, none⟩, ⟨.NA, 0, none, none, none⟩, ⟨.NA, 0, none, none, none⟩,
        ⟨.NA, 0, none, none, none, none, none⟩, ⟨.NA, 0⟩, ⟨.NA, 0, none⟩,
        5, 1, .MODERATE, 3, 0, 3, false, true⟩ 100
      (List.replicate 50 (⟨100, 101, 99, 100, 1, "Y"⟩ : Candle))
      ⟨[], ⟨[], [], []⟩, [], [], [], [], ⟨[], [], []⟩, [], none, []⟩).action = .LONG ∧
    (∃ sl tp, (generateSignal defaultConfig
        ⟨⟨.NA, 0, none⟩, ⟨.NA, 0, none, none, none⟩, ⟨.NA, 0, none, none, none⟩,
          ⟨.NA, 0, none, none, none, none, none⟩, ⟨.NA, 0⟩, ⟨.NA, 0, none⟩,
          5, 1, .MODERATE, 3, 0, 3, false, true⟩ 100
        (List.replicate 50 (⟨100, 101, 99, 100, 1, "Y"⟩ : Candle))
        ⟨[], ⟨[], [], []⟩, [], [], [], [], ⟨[], [], []⟩, [], none, []⟩).stopLoss = some sl ∧
      (generateSignal defaultConfig
        ⟨⟨.NA, 0, none⟩, ⟨.NA, 0, none, none, none⟩, ⟨.NA, 0, none, none, none⟩,
          ⟨.NA, 0, none, none, none, none, none⟩, ⟨.NA, 0⟩, ⟨.NA, 0, none⟩,
          5, 1, .MODERATE, 3, 0, 3, false, true⟩ 100
        (List.replicate 50 (⟨100, 101, 99, 100, 1, "Y"⟩ : Candle))
        ⟨[], ⟨[], [], []⟩, [], [], [], [], ⟨[], [], []⟩, [], none, []⟩).takeProfit = some tp ∧
      sl < 100 ∧ (100 : ℚ) < tp ∧ (100 : ℚ) - sl ≥ 100 * (15/1000)) :=
  ⟨by decide, by decide, by decide,
    (C1_sl_tp_invariants defaultConfig
      ⟨⟨.NA, 0, none⟩, ⟨.NA, 0, none, none, none⟩, ⟨.NA, 0, none, none, none⟩,
        ⟨.NA, 0, none, none, none, none, none⟩, ⟨.NA, 0⟩, ⟨.NA, 0, none⟩,
        5, 1, .MODERATE, 3, 0, 3, false, true⟩ 100
      (List.replicate 50 (⟨100, 101, 99, 100, 1, "Y"⟩ : Candle))
      ⟨[], ⟨[], [], []⟩, [], [], [], [], ⟨[], [], []⟩, [], none, []⟩
      (by decide) (by decide)).2.1 (by decide)⟩

end ClaimC1

section ClaimC2

open SignalEngine

set_option maxRecDepth 100000 in
/-- Counterexample to C2 as stated: with a degenerate negative current
price whose nearest support sits exactly at `price / 0.997`, the LONG
branch fires with `stopLoss = entry`, so `riskPercent = 0` is falsy, the
leverage block is skipped and the emitted leverage stays `1 ∉ [5, 15]`
although `action ≠ WAIT`. -/
theorem C2_counterexample :
    (generateSignal defaultConfig
      ⟨⟨.NA, 0, none⟩, ⟨.NA, 0, none, none, none⟩, ⟨.NA, 0, none, none, none⟩,
        ⟨.NA, 0, none, none, none, none, none⟩, ⟨.NA, 0⟩, ⟨.NA, 0, none⟩,
        5, 1, .MODERATE, 3, 0, 3, false, true⟩ (-994009/1000)
      (List.replicate 10 (⟨-985, -980, -990, -985, 1, "X"⟩ : Candle) ++
        [(⟨-985, -980, -997, -985, 1, "X"⟩ : Candle)] ++
        List.replicate 39 (⟨-985, -980, -990, -985, 1, "X"⟩ : Candle))
      ⟨[], ⟨[], [], []⟩, [], [], [], [], ⟨[], [], []⟩, [], none, []⟩).action ≠ .WAIT ∧
    ¬ (5 ≤ (generateSignal defaultConfig
        ⟨⟨.NA, 0, none⟩, ⟨.NA, 0, none, none, none⟩, ⟨.NA, 0, none, none, none⟩,
          ⟨.NA, 0, none, none, none, none, none⟩, ⟨.NA, 0⟩, ⟨.NA, 0, none⟩,
          5, 1, .MODERATE, 3, 0, 3, false, true⟩ (-994009/1000)
        (List.replicate 10 (⟨-985, -980, -990, -985, 1, "X"⟩ : Candle) ++
          [(⟨-985, -980, -997, -985, 1, "X"⟩ : Candle)] ++
          List.replicate 39 (⟨-985, -980, -990, -985, 1, "X"⟩ : Candle))
        ⟨[], ⟨[], [], []⟩, [], [], [], [], ⟨[], [], []⟩, [], none, []⟩).leverage ∧
      (generateSignal defaultConfig
        ⟨⟨.NA, 0, none⟩, ⟨.NA, 0, none, none, none⟩, ⟨.NA, 0, none, none, none⟩,
          ⟨.NA, 0, none, none, none, none, none⟩, ⟨.NA, 0⟩, ⟨.NA, 0, none⟩,
          5, 1, .MODERATE, 3, 0, 3, false, true⟩ (-994009/1000)
        (List.replicate 10 (⟨-985, -980, -990, -985, 1, "X"⟩ : Candle) ++
          [(⟨-985, -980, -997, -985, 1, "X"⟩ : Candle)] ++
          List.replicate 39 (⟨-985, -980, -990, -985, 1, "X"⟩ : Candle))
        ⟨[], ⟨[], [], []⟩, [], [], [], [], ⟨[], [], []⟩, [], none, []⟩).leverage ≤ 15) := by
  decide

/-- **C2 (amended)**: for every input with a strictly positive current
price on which `generateSignal` produces `action ≠ WAIT`, the emitted
leverage is an integer (the field has type `ℤ`) in the inclusive range
`[5, 15]`; with a non-positive price the leverage block can be skipped and
the field keeps its initial value `1`. -/
theorem C2_amended_leverage_bounds (cfg : Config) (a : Analysis) (price : ℚ)
    (candles : List Candle) (ind : Indicators) (hp : 0 < price)
    (hact : (generateSignal cfg a price candles ind).action ≠ .WAIT) :
    5 ≤ (generateSignal cfg a price candles ind).leverage ∧
    (generateSignal cfg a price candles ind).leverage ≤ 15 := by
  rw [generateSignal_action] at hact
  rw [generateSignal_leverage]
  cases hc : (coreOf cfg a price candles).action with
  | WAIT => exact absurd hc hact
  | LONG =>
    have hL := hc
    unfold coreOf at hL
    have hcoreEq := signalCore_action_long hL
    rw [hcoreEq] at hL
    obtain ⟨hrej, hsTruthy, hSL, hTP⟩ := longBranch_long_inv hL
    obtain ⟨v, hv, hv0⟩ := jsTruthy_eq_true hsTruthy
    have hjsv : jsNum (findSupportResistance candles price).nearestSupport ≠ 0 := by
      rw [hv]
      simpa [jsNum] using hv0
    obtain ⟨hge, hlt, hne0⟩ :=
      longStopLoss_spec hp (findSupportResistance candles price).nearestSupport
    have h15 : 0 < price * (15/1000) := by positivity
    have hdiff : price - longStopLoss price
        (findSupportResistance candles price).nearestSupport ≠ 0 :=
      ne_of_gt (by linarith)
    have hSLcore : (coreOf cfg a price candles).stopLoss =
        some (longStopLoss price (findSupportResistance candles price).nearestSupport) := by
      unfold coreOf
      rw [hcoreEq, hSL]
    rw [hSLcore]
    exact leverageOf_bounds _ (by simp)
      (riskPercentOf_truthy (ne_of_gt hp) (hne0 hjsv) hdiff)
  | SHORT =>
    have hS := hc
    unfold coreOf at hS
    have hcoreEq := signalCore_action_short hS
    rw [hcoreEq] at hS
    obtain ⟨hrej, hrTruthy, hSL, hTP⟩ := shortBranch_short_inv hS
    obtain ⟨v, hv, hv0⟩ := jsTruthy_eq_true hrTruthy
    have hjsv : jsNum (findSupportResistance candles price).nearestResistance ≠ 0 := by
      rw [hv]
      simpa [jsNum] using hv0
    obtain ⟨hge, hgt, hne0⟩ :=
      shortStopLoss_spec hp (findSupportResistance candles price).nearestResistance
    have h15 : 0 < price * (15/1000) := by positivity
    have hdiff : price - shortStopLoss price
        (findSupportResistance candles price).nearestResistance ≠ 0 :=
      ne_of_lt (by linarith)
    have hSLcore : (coreOf cfg a price candles).stopLoss =
        some (shortStopLoss price (findSupportResistance candles price).nearestResistance) := by
      unfold coreOf
      rw [hcoreEq, hSL]
    rw [hSLcore]
    exact leverageOf_bounds _ (by simp)
      (riskPercentOf_truthy (ne_of_gt hp) (hne0 hjsv) hdiff)

set_option maxRecDepth 100000 in
/-- Witness for the amended C2: the flat 50-candle LONG scenario emits
leverage 12, inside `[5, 15]`. -/
theorem C2_amended_leverage_bounds_witness :
    (0 : ℚ) < 100 ∧
    (generateSignal defaultConfig
      ⟨⟨.NA, 0, none⟩, ⟨.NA, 0, none, none, none⟩, ⟨.NA, 0, none, none, none⟩,
        ⟨.NA, 0, none, none, none, none, none⟩, ⟨.NA, 0⟩, ⟨.NA, 0, none⟩,
        5, 1, .MODERATE, 3, 0, 3, false, true⟩ 100
      (List.replicate 50 (⟨100, 101, 99, 100, 1, "Z"⟩ : Candle))
      ⟨[], ⟨[], [], []⟩, [], [], [], [], ⟨[], [], []⟩, [], none, []⟩).action ≠ .WAIT ∧
    (5 ≤ (generateSignal defaultConfig
        ⟨⟨.NA, 0, none⟩, ⟨.NA, 0, none, none, none⟩, ⟨.NA, 0, none, none, none⟩,
          ⟨.NA, 0, none, none, none, none, none⟩, ⟨.NA, 0⟩, ⟨.NA, 0, none⟩,
          5, 1, .MODERATE, 3, 0, 3, false, true⟩ 100
        (List.replicate 50 (⟨100, 101, 99, 100, 1, "Z"⟩ : Candle))
        ⟨[], ⟨[], [], []⟩, [], [], [], [], ⟨[], [], []⟩, [], none, []⟩).leverage ∧
      (generateSignal defaultConfig
        ⟨⟨.NA, 0, none⟩, ⟨.NA, 0, none, none, none⟩, ⟨.NA, 0, none, none, none⟩,
          ⟨.NA, 0, none, none, none, none, none⟩, ⟨.NA, 0⟩, ⟨.NA, 0, none⟩,
          5, 1, .MODERATE, 3, 0, 3, false, true⟩ 100
        (List.replicate 50 (⟨100, 101, 99, 100, 1, "Z"⟩ : Candle))
        ⟨[], ⟨[], [], []⟩, [], [], [], [], ⟨[], [], []⟩, [], none, []⟩).leverage ≤ 15) :=
  ⟨by decide, by decide,
    C2_amended_leverage_bounds defaultConfig
      ⟨⟨.NA, 0, none⟩, ⟨.NA, 0, none, none, none⟩, ⟨.NA, 0, none, none, none⟩,
        ⟨.NA, 0, none, none, none, none, none⟩, ⟨.NA, 0⟩, ⟨.NA, 0, none⟩,
        5, 1, .MODERATE, 3, 0, 3, false, true⟩ 100
      (List.replicate 50 (⟨100, 101, 99, 100, 1, "Z"⟩ : Candle))
      ⟨[], ⟨[], [], []⟩, [], [], [], [], ⟨[], [], []⟩, [], none, []⟩
      (by decide) (by decide)⟩

end ClaimC2

section ClaimC3

open SignalEngine

/-- **C3**: for every candle list of length strictly less than 50,
`analyze(candles)` returns the insufficiency error object and not a report
(so no indicator computation, scoring or composition result is produced). -/
theorem C3_insufficient_data (sqrtFn : ℚ → ℚ) (cfg : Config) (now : String)
    (candles : List Candle) (h : candles.length < 50) :
    analyze sqrtFn cfg now candles = .insufficientData := by
  simp [analyze, h]

/-- Witness for C3 on the empty candle list. -/
theorem C3_insufficient_data_witness :
    ([] : List Candle).length < 50 ∧
      analyze id defaultConfig "2024-01-01" [] = .insufficientData :=
  ⟨by decide, C3_insufficient_data id defaultConfig "2024-01-01" [] (by decide)⟩

end ClaimC3

section ClaimC9

open SignalEngine

/-- **C9**: two `analyze` calls with identical candles and configuration
differ at most in the advisory `timestamp` field (the clock input `now`
influences no other field of the result). -/
theorem C9_determinism (sqrtFn : ℚ → ℚ) (cfg : Config) (t1 t2 : String)
    (candles : List Candle) :
    analyze sqrtFn cfg t1 candles = setTimestamp (analyze sqrtFn cfg t2 candles) t1 := by
  by_cases h : candles.length < 50 <;> simp [analyze, setTimestamp, h]

end ClaimC9

end CryptoSignals
